import Mathlib

/-!
# Brake and throttle sampling pipeline (`Application/brakeAndThrottle.c`)

A shallow embedding of the module: its globals become the fields of `State`,
every function becomes a pure function on `State`, and every call into a
collaborator (timer, ADC managers, output callback, LED control, GATT update,
motor controller) is recorded as an `Event`.

Machine integers are natural numbers; every store into a `uint8_t` or
`uint16_t` object is reduced with `u8` / `u16`.  Expressions that C evaluates
in `int` are evaluated in `Int` (or in `Nat` where no subtraction occurs); the
embedding covers the executions in which those `int` expressions do not
overflow 32 bits.

The header `brakeAndThrottle.h` is not part of the sources, so each macro it
defines is a field of `Config`.
-/

namespace BrakeAndThrottle

/-- Reduction of a value stored into a `uint8_t` object. -/
def u8 (n : Nat) : Nat := n % 256

/-- Reduction of a value stored into a `uint16_t` object. -/
def u16 (n : Nat) : Nat := n % 65536

/-- Reduction of an `int` value converted to `uint16_t`. -/
def u16OfInt (z : Int) : Nat := (z % 65536).toNat

/-- The macros of `brakeAndThrottle.h` used by `brakeAndThrottle.c`.

The header is not among the sources, so every macro is a parameter.
`THROTTLEPERCENTREDUCTION`, a constant ratio between 0 and 1, is the fraction
`THROTTLEPERCENTREDUCTION_NUM / THROTTLEPERCENTREDUCTION_DEN`, and a comparison
of an integer with `throttlePercent0 * THROTTLEPERCENTREDUCTION` is decided
exactly by cross-multiplication. -/
structure Config where
  BRAKE_AND_THROTTLE_SAMPLES : Nat
  BRAKE_ADC_THRESHOLD_L : Nat
  BRAKE_ADC_THRESHOLD_H : Nat
  BRAKE_ADC_CALIBRATE_L : Nat
  BRAKE_ADC_CALIBRATE_H : Nat
  THROTTLE_ADC_THRESHOLD_L : Nat
  THROTTLE_ADC_THRESHOLD_H : Nat
  THROTTLE_ADC_CALIBRATE_L : Nat
  THROTTLE_ADC_CALIBRATE_H : Nat
  BRAKEPERCENTTHRESHOLD : Nat
  THROTTLEPERCENTREDUCTION_NUM : Nat
  THROTTLEPERCENTREDUCTION_DEN : Nat
  BRAKE_AND_THROTTLE_TORQUEIQ_MAX : Nat
  BRAKE_AND_THROTTLE_NORMAL : Nat
  BRAKE_ERROR : Nat
  THROTTLE_ERROR : Nat
  BRAKE_AND_THROTTLE_SPEED_MODE_AMBLE : Nat
  BRAKE_AND_THROTTLE_SPEED_MODE_LEISURE : Nat
  BRAKE_AND_THROTTLE_SPEED_MODE_SPORTS : Nat
  BRAKE_AND_THROTTLE_SPEED_MODE_REDUCTION_RATIO_AMBLE : Nat
  BRAKE_AND_THROTTLE_SPEED_MODE_REDUCTION_RATIO_LEISURE : Nat
  BRAKE_AND_THROTTLE_SPEED_MODE_REDUCTION_RATIO_SPORTS : Nat
  BRAKE_AND_THROTTLE_RAMPRATE_AMBLE : Nat
  BRAKE_AND_THROTTLE_RAMPRATE_LEISURE : Nat
  BRAKE_AND_THROTTLE_RAMPRATE_SPORTS : Nat
  BRAKE_AND_THROTTLE_MAXSPEED_AMBLE : Nat
  BRAKE_AND_THROTTLE_MAXSPEED_LEISURE : Nat
  BRAKE_AND_THROTTLE_MAXSPEED_SPORTS : Nat
  deriving Repr, DecidableEq

/-- The global and file-static variables of `brakeAndThrottle.c`. -/
structure State where
  speedMode : Nat
  adc2Result : Nat
  throttlePercent : Nat
  throttlePercent0 : Nat
  IQValue : Nat
  brakePercent : Nat
  brakeStatus : Nat
  brakeADCAvg : Nat
  throttleADCAvg : Nat
  brakeAndThrottle_errorMsg : Nat
  speedModeChgFlag : Nat
  state : Nat
  brakeIndex : Nat
  brakeADCValues : List Nat
  throttleIndex : Nat
  throttleADCValues : List Nat
  testpoint : Nat
  speedModeIQmax : Nat
  reductionRatio : Nat
  rampRate : Nat
  allowableSpeed : Nat
  deriving Repr, DecidableEq

/-- Calls made by the module into its collaborators, in program order. -/
inductive Event where
  | timerStart
  | timerStop
  | adc1Open
  | adc2Open
  | adc1Close
  | adc2Close
  | ledControl_setSpeedMode (speedMode : Nat)
  | motorcontrol_setGatt (speedMode : Nat)
  | brakeAndThrottle_CB (allowableSpeed IQValue errorMsg : Nat)
  | motorcontrol_speedModeChgCB (speedModeIQmax allowableSpeed rampRate : Nat)
  deriving Repr, DecidableEq

/-- Body of `brakeAndThrottle_getSpeedModeParams`: the `switch (speedMode)`. -/
def brakeAndThrottle_getSpeedModeParams (cfg : Config) (s : State) : State :=
  if s.speedMode = cfg.BRAKE_AND_THROTTLE_SPEED_MODE_AMBLE then
    let reductionRatio := u8 cfg.BRAKE_AND_THROTTLE_SPEED_MODE_REDUCTION_RATIO_AMBLE
    { s with
      speedMode := u8 cfg.BRAKE_AND_THROTTLE_SPEED_MODE_AMBLE
      reductionRatio := reductionRatio
      speedModeIQmax := u16 (reductionRatio * cfg.BRAKE_AND_THROTTLE_TORQUEIQ_MAX / 100)
      rampRate := u16 cfg.BRAKE_AND_THROTTLE_RAMPRATE_AMBLE
      allowableSpeed := u16 cfg.BRAKE_AND_THROTTLE_MAXSPEED_AMBLE }
  else if s.speedMode = cfg.BRAKE_AND_THROTTLE_SPEED_MODE_LEISURE then
    let reductionRatio := u8 cfg.BRAKE_AND_THROTTLE_SPEED_MODE_REDUCTION_RATIO_LEISURE
    { s with
      speedMode := u8 cfg.BRAKE_AND_THROTTLE_SPEED_MODE_LEISURE
      reductionRatio := reductionRatio
      speedModeIQmax := u16 (reductionRatio * cfg.BRAKE_AND_THROTTLE_TORQUEIQ_MAX / 100)
      rampRate := u16 cfg.BRAKE_AND_THROTTLE_RAMPRATE_LEISURE
      allowableSpeed := u16 cfg.BRAKE_AND_THROTTLE_MAXSPEED_LEISURE }
  else if s.speedMode = cfg.BRAKE_AND_THROTTLE_SPEED_MODE_SPORTS then
    let reductionRatio := u8 cfg.BRAKE_AND_THROTTLE_SPEED_MODE_REDUCTION_RATIO_SPORTS
    { s with
      speedMode := u8 cfg.BRAKE_AND_THROTTLE_SPEED_MODE_SPORTS
      reductionRatio := reductionRatio
      speedModeIQmax := u16 (reductionRatio * cfg.BRAKE_AND_THROTTLE_TORQUEIQ_MAX / 100)
      rampRate := u16 cfg.BRAKE_AND_THROTTLE_RAMPRATE_SPORTS
      allowableSpeed := u16 cfg.BRAKE_AND_THROTTLE_MAXSPEED_SPORTS }
  else s

/-- The seeding loop of `brakeAndThrottle_init`, run for `n` iterations from
slot `ii`: each iteration stores the two calibration-low values at slot `ii`. -/
def initLoop (cfg : Config) : Nat → Nat → State → State
  | 0, _, s => s
  | n + 1, ii, s =>
    initLoop cfg n (ii + 1)
      { s with
        brakeADCValues := s.brakeADCValues.set ii (u16 cfg.BRAKE_ADC_CALIBRATE_L)
        throttleADCValues := s.throttleADCValues.set ii (u16 cfg.THROTTLE_ADC_CALIBRATE_L) }

/-- Function `brakeAndThrottle_init`. -/
def brakeAndThrottle_init (cfg : Config) (s : State) : State :=
  let s1 := { s with speedMode := u8 cfg.BRAKE_AND_THROTTLE_SPEED_MODE_LEISURE }
  let s2 := brakeAndThrottle_getSpeedModeParams cfg s1
  initLoop cfg cfg.BRAKE_AND_THROTTLE_SAMPLES 0 s2

/-- Function `brakeAndThrottle_start`. -/
def brakeAndThrottle_start (s : State) : State × List Event :=
  ({ s with testpoint := 1 }, [Event.timerStart, Event.adc1Open, Event.adc2Open])

/-- Function `brakeAndThrottle_stop`. -/
def brakeAndThrottle_stop (s : State) : State × List Event :=
  (s, [Event.timerStop, Event.adc1Close, Event.adc2Close])

/-- Function `brakeAndThrottle_toggle`. -/
def brakeAndThrottle_toggle (s : State) : State × List Event :=
  if s.state = 0 then
    ({ s with state := 1 }, [Event.timerStart, Event.adc1Open, Event.adc2Open])
  else if s.state = 1 then
    ({ s with state := 0 }, [Event.timerStop, Event.adc1Close, Event.adc2Close])
  else (s, [])

/-- Function `brakeAndThrottle_setSpeedMode`: the assignment
`speedMode = speedMode` reads and writes the parameter, which shadows the
global of the same name. -/
def brakeAndThrottle_setSpeedMode (s : State) (speedMode : Nat) : State :=
  let _speedMode := u8 speedMode
  s

/-- Function `brakeAndThrottle_getSpeedMode`. -/
def brakeAndThrottle_getSpeedMode (s : State) : Nat := s.speedMode

/-- Function `brakeAndThrottle_getThrottlePercent`. -/
def brakeAndThrottle_getThrottlePercent (s : State) : Nat := s.throttlePercent

/-- Function `brakeAndThrottle_getBrakePercent`. -/
def brakeAndThrottle_getBrakePercent (s : State) : Nat := s.brakePercent

/-- Function `brakeAndThrottle_toggleSpeedMode`. -/
def brakeAndThrottle_toggleSpeedMode (cfg : Config) (s : State) : State × List Event :=
  let s0 := { s with speedModeChgFlag := 1 }
  if s0.adc2Result ≤ cfg.THROTTLE_ADC_CALIBRATE_L then
    let s1 :=
      if s0.speedMode = cfg.BRAKE_AND_THROTTLE_SPEED_MODE_AMBLE then
        let reductionRatio := u8 cfg.BRAKE_AND_THROTTLE_SPEED_MODE_REDUCTION_RATIO_LEISURE
        { s0 with
          speedMode := u8 cfg.BRAKE_AND_THROTTLE_SPEED_MODE_LEISURE
          reductionRatio := reductionRatio
          speedModeIQmax := u16 (reductionRatio * cfg.BRAKE_AND_THROTTLE_TORQUEIQ_MAX / 100)
          rampRate := u16 cfg.BRAKE_AND_THROTTLE_RAMPRATE_LEISURE
          allowableSpeed := u16 cfg.BRAKE_AND_THROTTLE_MAXSPEED_LEISURE }
      else if s0.speedMode = cfg.BRAKE_AND_THROTTLE_SPEED_MODE_LEISURE then
        let reductionRatio := u8 cfg.BRAKE_AND_THROTTLE_SPEED_MODE_REDUCTION_RATIO_SPORTS
        { s0 with
          speedMode := u8 cfg.BRAKE_AND_THROTTLE_SPEED_MODE_SPORTS
          reductionRatio := reductionRatio
          speedModeIQmax := u16 (reductionRatio * cfg.BRAKE_AND_THROTTLE_TORQUEIQ_MAX / 100)
          rampRate := u16 cfg.BRAKE_AND_THROTTLE_RAMPRATE_SPORTS
          allowableSpeed := u16 cfg.BRAKE_AND_THROTTLE_MAXSPEED_SPORTS }
      else if s0.speedMode = cfg.BRAKE_AND_THROTTLE_SPEED_MODE_SPORTS then
        let reductionRatio := u8 cfg.BRAKE_AND_THROTTLE_SPEED_MODE_REDUCTION_RATIO_AMBLE
        { s0 with
          speedMode := u8 cfg.BRAKE_AND_THROTTLE_SPEED_MODE_AMBLE
          reductionRatio := reductionRatio
          speedModeIQmax := u16 (reductionRatio * cfg.BRAKE_AND_THROTTLE_TORQUEIQ_MAX / 100)
          rampRate := u16 cfg.BRAKE_AND_THROTTLE_RAMPRATE_AMBLE
          allowableSpeed := u16 cfg.BRAKE_AND_THROTTLE_MAXSPEED_AMBLE }
      else s0
    (s1, [Event.ledControl_setSpeedMode s1.speedMode, Event.motorcontrol_setGatt s1.speedMode])
  else (s0, [])

/-! ## The sampling tick, `brakeAndThrottle_ADC_conversion` -/

/-- Lines 373-377 and 381-385: `values[index++] = adc; if (index >= SAMPLES) index = 0;`
with a `uint8_t` index.  A store past the end of the array leaves the list
unchanged. -/
def pushSample (cfg : Config) (values : List Nat) (index adc : Nat) : List Nat × Nat :=
  let values' := values.set index adc
  let index' := u8 (index + 1)
  (values', if index' ≥ cfg.BRAKE_AND_THROTTLE_SAMPLES then 0 else index')

/-- Lines 393-399: the `uint16_t` accumulator starts at `0xFF` and adds the
slots `0 .. SAMPLES-1` in turn.  The loop counter is a `uint8_t`, so the loop
of the source terminates exactly when `SAMPLES ≤ 255`; the embedding describes
those configurations. -/
def adcTotal (cfg : Config) (values : List Nat) : Nat :=
  (List.range cfg.BRAKE_AND_THROTTLE_SAMPLES).foldl
    (fun total index => u16 (total + values.getD index 0)) 0xFF

/-- Lines 401 and 403: the moving average, before the error check and the clamp. -/
def adcAvg (cfg : Config) (values : List Nat) : Nat :=
  adcTotal cfg values / cfg.BRAKE_AND_THROTTLE_SAMPLES

/-- Lines 412-419 and 439-446: the two-sided range check of one channel;
`err` is the error code the channel stores. -/
def errorCheck (thresholdL thresholdH err errorMsg avg : Nat) : Nat :=
  let e1 := if thresholdL > avg then u8 err else errorMsg
  if avg > thresholdH then u8 err else e1

/-- Lines 424-431 and 451-458: truncation of the average to the calibration range. -/
def calibrate (calibrateL calibrateH avg : Nat) : Nat :=
  let a1 := if avg > calibrateH then u16 calibrateH else avg
  if a1 < calibrateL then u16 calibrateL else a1

/-- Lines 463 and 498: `(uint16_t) ((avg - CALIBRATE_L) * 100 / (CALIBRATE_H - CALIBRATE_L))`,
evaluated in `int` with division truncating toward zero. -/
def percentOf (calibrateL calibrateH avg : Nat) : Nat :=
  u16OfInt (Int.tdiv (((avg : Int) - (calibrateL : Int)) * 100)
    ((calibrateH : Int) - (calibrateL : Int)))

/-- Lines 470-484: the brake power-off protection state machine.  Takes the
values of `brakeStatus`, `throttlePercent`, `throttlePercent0` and
`brakePercent` at line 470 and returns the new `(brakeStatus, throttlePercent0)`. -/
def brakeStateMachine (cfg : Config)
    (brakeStatus throttlePercent throttlePercent0 brakePercent : Nat) : Nat × Nat :=
  if brakeStatus = 1 ∧
      throttlePercent * cfg.THROTTLEPERCENTREDUCTION_DEN
        ≥ throttlePercent0 * cfg.THROTTLEPERCENTREDUCTION_NUM then
    if throttlePercent0 = 0 ∧ brakePercent ≤ cfg.BRAKEPERCENTTHRESHOLD then
      (0, throttlePercent0)
    else
      (1, throttlePercent0)
  else if brakeStatus = 0 ∧ brakePercent > cfg.BRAKEPERCENTTHRESHOLD then
    (1, throttlePercent)
  else if throttlePercent * cfg.THROTTLEPERCENTREDUCTION_DEN
        < throttlePercent0 * cfg.THROTTLEPERCENTREDUCTION_NUM
      ∧ brakePercent ≤ cfg.BRAKEPERCENTTHRESHOLD then
    (0, throttlePercent0)
  else
    (brakeStatus, throttlePercent0)

/-- Lines 500-510: the torque command. -/
def torqueCommand (cfg : Config) (errorMsg brakeStatus reductionRatio throttlePercent : Nat) : Nat :=
  if errorMsg = 0 then
    if brakeStatus = 1 then 0
    else u16 (cfg.BRAKE_AND_THROTTLE_TORQUEIQ_MAX * reductionRatio * throttlePercent / 10000)
  else 0

/-- Function `brakeAndThrottle_ADC_conversion`: one tick.  `adc1` and `adc2`
are the values the two ADC managers write into their `uint16_t` result. -/
def brakeAndThrottle_ADC_conversion (cfg : Config) (s : State) (adc1 adc2 : Nat) :
    State × List Event :=
  let adc1Result := u16 adc1
  let brakePush := pushSample cfg s.brakeADCValues s.brakeIndex adc1Result
  let adc2Result := u16 adc2
  let throttlePush := pushSample cfg s.throttleADCValues s.throttleIndex adc2Result
  let brakeADCAvg0 := adcAvg cfg brakePush.1
  let throttleADCAvg0 := adcAvg cfg throttlePush.1
  let err1 := errorCheck cfg.BRAKE_ADC_THRESHOLD_L cfg.BRAKE_ADC_THRESHOLD_H cfg.BRAKE_ERROR
    s.brakeAndThrottle_errorMsg brakeADCAvg0
  let brakeADCAvg := calibrate cfg.BRAKE_ADC_CALIBRATE_L cfg.BRAKE_ADC_CALIBRATE_H brakeADCAvg0
  let err2 := errorCheck cfg.THROTTLE_ADC_THRESHOLD_L cfg.THROTTLE_ADC_THRESHOLD_H
    cfg.THROTTLE_ERROR err1 throttleADCAvg0
  let throttleADCAvg :=
    calibrate cfg.THROTTLE_ADC_CALIBRATE_L cfg.THROTTLE_ADC_CALIBRATE_H throttleADCAvg0
  let brakePercent := percentOf cfg.BRAKE_ADC_CALIBRATE_L cfg.BRAKE_ADC_CALIBRATE_H brakeADCAvg
  let sm := brakeStateMachine cfg s.brakeStatus s.throttlePercent s.throttlePercent0 brakePercent
  let throttlePercent :=
    percentOf cfg.THROTTLE_ADC_CALIBRATE_L cfg.THROTTLE_ADC_CALIBRATE_H throttleADCAvg
  let IQValue := torqueCommand cfg err2 sm.1 s.reductionRatio throttlePercent
  let apply := decide (s.speedModeChgFlag = 1 ∧ adc2Result ≤ cfg.THROTTLE_ADC_CALIBRATE_L)
  ({ s with
      brakeADCValues := brakePush.1
      brakeIndex := brakePush.2
      adc2Result := adc2Result
      throttleADCValues := throttlePush.1
      throttleIndex := throttlePush.2
      brakeADCAvg := brakeADCAvg
      throttleADCAvg := throttleADCAvg
      brakeAndThrottle_errorMsg := err2
      brakePercent := brakePercent
      brakeStatus := sm.1
      throttlePercent0 := sm.2
      throttlePercent := throttlePercent
      IQValue := IQValue
      speedModeChgFlag := if apply then 0 else s.speedModeChgFlag },
    Event.brakeAndThrottle_CB s.allowableSpeed IQValue err2 ::
      (if apply then
        [Event.motorcontrol_speedModeChgCB s.speedModeIQmax s.allowableSpeed s.rampRate]
       else []))

/-! ## Runs -/

/-- Zero-initialised statics at power on (C static initialisation), with the
two explicit initialisers `brakeStatus = 0` and
`brakeAndThrottle_errorMsg = BRAKE_AND_THROTTLE_NORMAL`. -/
def powerOnState (cfg : Config) : State :=
  { speedMode := 0, adc2Result := 0, throttlePercent := 0, throttlePercent0 := 0,
    IQValue := 0, brakePercent := 0, brakeStatus := 0, brakeADCAvg := 0, throttleADCAvg := 0,
    brakeAndThrottle_errorMsg := u8 cfg.BRAKE_AND_THROTTLE_NORMAL, speedModeChgFlag := 0,
    state := 0, brakeIndex := 0,
    brakeADCValues := List.replicate cfg.BRAKE_AND_THROTTLE_SAMPLES 0,
    throttleIndex := 0,
    throttleADCValues := List.replicate cfg.BRAKE_AND_THROTTLE_SAMPLES 0,
    testpoint := 0, speedModeIQmax := 0, reductionRatio := 0, rampRate := 0,
    allowableSpeed := 0 }

/-- The state after each tick of a run; a tick input is the pair
`(brake reading, throttle reading)`. -/
def tickStates (cfg : Config) : State → List (Nat × Nat) → List State
  | _, [] => []
  | s, (adc1, adc2) :: rest =>
    let s' := (brakeAndThrottle_ADC_conversion cfg s adc1 adc2).1
    s' :: tickStates cfg s' rest

/-- The collaborator calls made by each tick of a run. -/
def tickEvents (cfg : Config) : State → List (Nat × Nat) → List (List Event)
  | _, [] => []
  | s, (adc1, adc2) :: rest =>
    let r := brakeAndThrottle_ADC_conversion cfg s adc1 adc2
    r.2 :: tickEvents cfg r.1 rest

/-- The state at the end of a run of ticks. -/
def runTicks (cfg : Config) : State → List (Nat × Nat) → State
  | s, [] => s
  | s, (adc1, adc2) :: rest =>
    runTicks cfg (brakeAndThrottle_ADC_conversion cfg s adc1 adc2).1 rest

/-- The operations of the module's public surface. -/
inductive Op where
  | init
  | start
  | stop
  | toggle
  | setSpeedMode (speedMode : Nat)
  | toggleSpeedMode
  | tick (adc1 adc2 : Nat)
  deriving Repr, DecidableEq

/-- One operation: new state and the collaborator calls it makes. -/
def step (cfg : Config) (s : State) : Op → State × List Event
  | Op.init => (brakeAndThrottle_init cfg s, [])
  | Op.start => brakeAndThrottle_start s
  | Op.stop => brakeAndThrottle_stop s
  | Op.toggle => brakeAndThrottle_toggle s
  | Op.setSpeedMode v => (brakeAndThrottle_setSpeedMode s v, [])
  | Op.toggleSpeedMode => brakeAndThrottle_toggleSpeedMode cfg s
  | Op.tick adc1 adc2 => brakeAndThrottle_ADC_conversion cfg s adc1 adc2

/-- A sequence of operations: final state and all collaborator calls in order. -/
def run (cfg : Config) : State → List Op → State × List Event
  | s, [] => (s, [])
  | s, op :: ops =>
    let r := step cfg s op
    let r' := run cfg r.1 ops
    (r'.1, r.2 ++ r'.2)

/-- The arguments of the `motorcontrol_speedModeChgCB` call among the calls of
one tick, if the tick made that call. -/
def applyOf : List Event → Option (Nat × Nat × Nat)
  | [] => none
  | Event.motorcontrol_speedModeChgCB iq speed ramp :: _ => some (iq, speed, ramp)
  | _ :: rest => applyOf rest

/-- The average a tick computes for the brake channel (line 401), before the
error check and the clamp. -/
def brakeAvgOfTick (cfg : Config) (s : State) (adc1 : Nat) : Nat :=
  adcAvg cfg (pushSample cfg s.brakeADCValues s.brakeIndex (u16 adc1)).1

/-- The average a tick computes for the throttle channel (line 403), before
the error check and the clamp. -/
def throttleAvgOfTick (cfg : Config) (s : State) (adc2 : Nat) : Nat :=
  adcAvg cfg (pushSample cfg s.throttleADCValues s.throttleIndex (u16 adc2)).1

/-- The brake average is outside the range accepted at lines 412-419. -/
def brakeOutOfRange (cfg : Config) (avg : Nat) : Prop :=
  cfg.BRAKE_ADC_THRESHOLD_L > avg ∨ avg > cfg.BRAKE_ADC_THRESHOLD_H

/-- The throttle average is outside the range accepted at lines 439-446. -/
def throttleOutOfRange (cfg : Config) (avg : Nat) : Prop :=
  avg < cfg.THROTTLE_ADC_THRESHOLD_L ∨ avg > cfg.THROTTLE_ADC_THRESHOLD_H

instance (cfg : Config) (avg : Nat) : Decidable (brakeOutOfRange cfg avg) := by
  unfold brakeOutOfRange; infer_instance

instance (cfg : Config) (avg : Nat) : Decidable (throttleOutOfRange cfg avg) := by
  unfold throttleOutOfRange; infer_instance

/-- The spec's clamp of a value into `[lo, hi]`. -/
def clampInto (lo hi x : Nat) : Nat := max lo (min hi x)

/-- The spec's example constants (N = 5; both channels validLow = 100,
calibrateLow = 150, calibrateHigh = 3000, validHigh = 4000; brakeThreshold = 15;
reductionFactor = 1/2), completed with a torque ceiling, three fault codes and
three mode profiles. -/
def exampleConfig : Config :=
  { BRAKE_AND_THROTTLE_SAMPLES := 5
    BRAKE_ADC_THRESHOLD_L := 100
    BRAKE_ADC_THRESHOLD_H := 4000
    BRAKE_ADC_CALIBRATE_L := 150
    BRAKE_ADC_CALIBRATE_H := 3000
    THROTTLE_ADC_THRESHOLD_L := 100
    THROTTLE_ADC_THRESHOLD_H := 4000
    THROTTLE_ADC_CALIBRATE_L := 150
    THROTTLE_ADC_CALIBRATE_H := 3000
    BRAKEPERCENTTHRESHOLD := 15
    THROTTLEPERCENTREDUCTION_NUM := 1
    THROTTLEPERCENTREDUCTION_DEN := 2
    BRAKE_AND_THROTTLE_TORQUEIQ_MAX := 20000
    BRAKE_AND_THROTTLE_NORMAL := 0
    BRAKE_ERROR := 14
    THROTTLE_ERROR := 12
    BRAKE_AND_THROTTLE_SPEED_MODE_AMBLE := 0
    BRAKE_AND_THROTTLE_SPEED_MODE_LEISURE := 1
    BRAKE_AND_THROTTLE_SPEED_MODE_SPORTS := 2
    BRAKE_AND_THROTTLE_SPEED_MODE_REDUCTION_RATIO_AMBLE := 40
    BRAKE_AND_THROTTLE_SPEED_MODE_REDUCTION_RATIO_LEISURE := 70
    BRAKE_AND_THROTTLE_SPEED_MODE_REDUCTION_RATIO_SPORTS := 100
    BRAKE_AND_THROTTLE_RAMPRATE_AMBLE := 3000
    BRAKE_AND_THROTTLE_RAMPRATE_LEISURE := 2000
    BRAKE_AND_THROTTLE_RAMPRATE_SPORTS := 1000
    BRAKE_AND_THROTTLE_MAXSPEED_AMBLE := 250
    BRAKE_AND_THROTTLE_MAXSPEED_LEISURE := 400
    BRAKE_AND_THROTTLE_MAXSPEED_SPORTS := 600 }

/-- The example configuration after power on and `brakeAndThrottle_init`. -/
def exampleInit : State := brakeAndThrottle_init exampleConfig (powerOnState exampleConfig)

/-- The content of a ring window read from the slot the next push overwrites
(the oldest sample) round to the newest sample. -/
def ringOrder (values : List Nat) (index : Nat) : List Nat :=
  values.drop index ++ values.take index

/-- A first-in first-out window of fixed length: each new sample drops the
oldest one. -/
def fifo (q : List Nat) (xs : List Nat) : List Nat :=
  xs.foldl (fun q x => q.tail ++ [x]) q

/-- Both sample windows hold `BRAKE_AND_THROTTLE_SAMPLES` slots and both ring
indices point at a slot. -/
def WindowsOK (cfg : Config) (s : State) : Prop :=
  s.brakeADCValues.length = cfg.BRAKE_AND_THROTTLE_SAMPLES
  ∧ s.brakeIndex < cfg.BRAKE_AND_THROTTLE_SAMPLES
  ∧ s.throttleADCValues.length = cfg.BRAKE_AND_THROTTLE_SAMPLES
  ∧ s.throttleIndex < cfg.BRAKE_AND_THROTTLE_SAMPLES

instance (cfg : Config) (s : State) : Decidable (WindowsOK cfg s) := by
  unfold WindowsOK; infer_instance

/-- The throttle average stays inside its accepted range on every tick of the run. -/
def throttleInRangeAlong (cfg : Config) : State → List (Nat × Nat) → Prop
  | _, [] => True
  | s, (adc1, adc2) :: rest =>
    ¬ throttleOutOfRange cfg (throttleAvgOfTick cfg s adc2)
    ∧ throttleInRangeAlong cfg (brakeAndThrottle_ADC_conversion cfg s adc1 adc2).1 rest

/-- The brake average stays inside its accepted range on every tick of the run. -/
def brakeInRangeAlong (cfg : Config) : State → List (Nat × Nat) → Prop
  | _, [] => True
  | s, (adc1, adc2) :: rest =>
    ¬ brakeOutOfRange cfg (brakeAvgOfTick cfg s adc1)
    ∧ brakeInRangeAlong cfg (brakeAndThrottle_ADC_conversion cfg s adc1 adc2).1 rest

/-- Readings of a ride on the example configuration: throttle held at 1810
for five ticks, one brake pulse of 3000, the throttle eased off for three
ticks, then the throttle opened again on the tick the brake pulse leaves the
window. -/
def hysteresisScenario : List (Nat × Nat) :=
  [(150, 1810), (150, 1810), (150, 1810), (150, 1810), (150, 1810), (3000, 1810),
   (150, 150), (150, 150), (150, 150), (150, 1810), (150, 3500)]

/-- Readings of a ride on the example configuration: throttle held at 1810
for five ticks, one brake pulse of 3000, then the brake eased to 250 and the
throttle to 900 for four ticks and to 500 for two more. -/
def releaseScenario : List (Nat × Nat) :=
  [(150, 1810), (150, 1810), (150, 1810), (150, 1810), (150, 1810), (3000, 1810),
   (250, 900), (250, 900), (250, 900), (250, 900), (250, 500), (250, 500)]

/-- What the state machine and the torque computation left behind after a tick:
`(brakeStatus, throttlePercent0, brakePercent, throttlePercent, IQValue)`. -/
def observe (s : State) : Nat × Nat × Nat × Nat × Nat :=
  (s.brakeStatus, s.throttlePercent0, s.brakePercent, s.throttlePercent, s.IQValue)

/-- The four mode parameters held by a state:
`(reductionRatio, speedModeIQmax, rampRate, allowableSpeed)`. -/
def modeParams (s : State) : Nat × Nat × Nat × Nat :=
  (s.reductionRatio, s.speedModeIQmax, s.rampRate, s.allowableSpeed)

/-- The four parameters the source assigns for a mode whose macros are
`ratio`, `ramp` and `speed` (lines 215-219 and their copies): the ratio stored
in a `uint8_t`, the torque ceiling `reductionRatio * TORQUEIQ_MAX / 100`, the
ramp rate and the allowable speed stored in `uint16_t`. -/
def profile (cfg : Config) (ratio ramp speed : Nat) : Nat × Nat × Nat × Nat :=
  (u8 ratio, u16 (u8 ratio * cfg.BRAKE_AND_THROTTLE_TORQUEIQ_MAX / 100), u16 ramp, u16 speed)

/-- The three speed-mode identifiers are pairwise different 8-bit values (as
`case` labels of one `switch` over a `uint8_t` they must be). -/
def ModesDistinct (cfg : Config) : Prop :=
  cfg.BRAKE_AND_THROTTLE_SPEED_MODE_AMBLE < 256
  ∧ cfg.BRAKE_AND_THROTTLE_SPEED_MODE_LEISURE < 256
  ∧ cfg.BRAKE_AND_THROTTLE_SPEED_MODE_SPORTS < 256
  ∧ cfg.BRAKE_AND_THROTTLE_SPEED_MODE_AMBLE ≠ cfg.BRAKE_AND_THROTTLE_SPEED_MODE_LEISURE
  ∧ cfg.BRAKE_AND_THROTTLE_SPEED_MODE_AMBLE ≠ cfg.BRAKE_AND_THROTTLE_SPEED_MODE_SPORTS
  ∧ cfg.BRAKE_AND_THROTTLE_SPEED_MODE_LEISURE ≠ cfg.BRAKE_AND_THROTTLE_SPEED_MODE_SPORTS

instance (cfg : Config) : Decidable (ModesDistinct cfg) := by
  unfold ModesDistinct; infer_instance

/-- The throttle is idle for `brakeAndThrottle_toggleSpeedMode`: the last raw
throttle reading is at or below `THROTTLE_ADC_CALIBRATE_L` (line 258). -/
def throttleIdle (cfg : Config) (s : State) : Prop :=
  s.adc2Result ≤ cfg.THROTTLE_ADC_CALIBRATE_L

instance (cfg : Config) (s : State) : Decidable (throttleIdle cfg s) := by
  unfold throttleIdle; infer_instance

/-- Ten ticks with the brake reading pinned at 0 and the throttle reading at
the example `THROTTLE_ADC_CALIBRATE_L`. -/
def brakePinnedScenario : List (Nat × Nat) := List.replicate 10 (0, 150)

/-- The error status and the torque command left by a tick. -/
def observeFault (s : State) : Nat × Nat := (s.brakeAndThrottle_errorMsg, s.IQValue)

/-- The state after `n` consecutive calls of `brakeAndThrottle_toggleSpeedMode`. -/
def requests (cfg : Config) : Nat → State → State
  | 0, s => s
  | n + 1, s => requests cfg n (brakeAndThrottle_toggleSpeedMode cfg s).1

/-- The state's speed mode is one of the three modes and its four parameters
are the ones the source assigns for that mode. -/
def ModeConsistent (cfg : Config) (s : State) : Prop :=
  (s.speedMode = cfg.BRAKE_AND_THROTTLE_SPEED_MODE_AMBLE
    ∧ modeParams s = profile cfg cfg.BRAKE_AND_THROTTLE_SPEED_MODE_REDUCTION_RATIO_AMBLE
        cfg.BRAKE_AND_THROTTLE_RAMPRATE_AMBLE cfg.BRAKE_AND_THROTTLE_MAXSPEED_AMBLE)
  ∨ (s.speedMode = cfg.BRAKE_AND_THROTTLE_SPEED_MODE_LEISURE
    ∧ modeParams s = profile cfg cfg.BRAKE_AND_THROTTLE_SPEED_MODE_REDUCTION_RATIO_LEISURE
        cfg.BRAKE_AND_THROTTLE_RAMPRATE_LEISURE cfg.BRAKE_AND_THROTTLE_MAXSPEED_LEISURE)
  ∨ (s.speedMode = cfg.BRAKE_AND_THROTTLE_SPEED_MODE_SPORTS
    ∧ modeParams s = profile cfg cfg.BRAKE_AND_THROTTLE_SPEED_MODE_REDUCTION_RATIO_SPORTS
        cfg.BRAKE_AND_THROTTLE_RAMPRATE_SPORTS cfg.BRAKE_AND_THROTTLE_MAXSPEED_SPORTS)

instance (cfg : Config) (s : State) : Decidable (ModeConsistent cfg s) := by
  unfold ModeConsistent; infer_instance

/-- Each mode's reduction ratio is a percentage, at most 100. -/
def RatiosBounded (cfg : Config) : Prop :=
  cfg.BRAKE_AND_THROTTLE_SPEED_MODE_REDUCTION_RATIO_AMBLE ≤ 100
  ∧ cfg.BRAKE_AND_THROTTLE_SPEED_MODE_REDUCTION_RATIO_LEISURE ≤ 100
  ∧ cfg.BRAKE_AND_THROTTLE_SPEED_MODE_REDUCTION_RATIO_SPORTS ≤ 100

instance (cfg : Config) : Decidable (RatiosBounded cfg) := by
  unfold RatiosBounded; infer_instance

/-- The state reached from `brakeAndThrottle_init` (called in any prior state
`s0`) by a sequence of operations. -/
def reached (cfg : Config) (s0 : State) (ops : List Op) : State :=
  (run cfg (brakeAndThrottle_init cfg s0) ops).1

/-! ## Basic facts about one tick -/

theorem u16_lt (n : Nat) : u16 n < 65536 := Nat.mod_lt _ (by decide)

theorem u16_of_lt {n : Nat} (h : n < 65536) : u16 n = n := Nat.mod_eq_of_lt h

theorem u8_of_lt {n : Nat} (h : n < 256) : u8 n = n := Nat.mod_eq_of_lt h

theorem tick_errorMsg (cfg : Config) (s : State) (adc1 adc2 : Nat) :
    (brakeAndThrottle_ADC_conversion cfg s adc1 adc2).1.brakeAndThrottle_errorMsg =
      errorCheck cfg.THROTTLE_ADC_THRESHOLD_L cfg.THROTTLE_ADC_THRESHOLD_H cfg.THROTTLE_ERROR
        (errorCheck cfg.BRAKE_ADC_THRESHOLD_L cfg.BRAKE_ADC_THRESHOLD_H cfg.BRAKE_ERROR
          s.brakeAndThrottle_errorMsg (brakeAvgOfTick cfg s adc1))
        (throttleAvgOfTick cfg s adc2) := rfl

theorem tick_brakePercent (cfg : Config) (s : State) (adc1 adc2 : Nat) :
    (brakeAndThrottle_ADC_conversion cfg s adc1 adc2).1.brakePercent =
      percentOf cfg.BRAKE_ADC_CALIBRATE_L cfg.BRAKE_ADC_CALIBRATE_H
        (calibrate cfg.BRAKE_ADC_CALIBRATE_L cfg.BRAKE_ADC_CALIBRATE_H
          (brakeAvgOfTick cfg s adc1)) := rfl

theorem tick_throttlePercent (cfg : Config) (s : State) (adc1 adc2 : Nat) :
    (brakeAndThrottle_ADC_conversion cfg s adc1 adc2).1.throttlePercent =
      percentOf cfg.THROTTLE_ADC_CALIBRATE_L cfg.THROTTLE_ADC_CALIBRATE_H
        (calibrate cfg.THROTTLE_ADC_CALIBRATE_L cfg.THROTTLE_ADC_CALIBRATE_H
          (throttleAvgOfTick cfg s adc2)) := rfl

theorem tick_brakeStatus (cfg : Config) (s : State) (adc1 adc2 : Nat) :
    (brakeAndThrottle_ADC_conversion cfg s adc1 adc2).1.brakeStatus =
      (brakeStateMachine cfg s.brakeStatus s.throttlePercent s.throttlePercent0
        (brakeAndThrottle_ADC_conversion cfg s adc1 adc2).1.brakePercent).1 := rfl

theorem tick_throttlePercent0 (cfg : Config) (s : State) (adc1 adc2 : Nat) :
    (brakeAndThrottle_ADC_conversion cfg s adc1 adc2).1.throttlePercent0 =
      (brakeStateMachine cfg s.brakeStatus s.throttlePercent s.throttlePercent0
        (brakeAndThrottle_ADC_conversion cfg s adc1 adc2).1.brakePercent).2 := rfl

theorem tick_IQValue (cfg : Config) (s : State) (adc1 adc2 : Nat) :
    (brakeAndThrottle_ADC_conversion cfg s adc1 adc2).1.IQValue =
      torqueCommand cfg (brakeAndThrottle_ADC_conversion cfg s adc1 adc2).1.brakeAndThrottle_errorMsg
        (brakeAndThrottle_ADC_conversion cfg s adc1 adc2).1.brakeStatus s.reductionRatio
        (brakeAndThrottle_ADC_conversion cfg s adc1 adc2).1.throttlePercent := rfl

theorem tick_events_head (cfg : Config) (s : State) (adc1 adc2 : Nat) :
    (brakeAndThrottle_ADC_conversion cfg s adc1 adc2).2.head? =
      some (Event.brakeAndThrottle_CB s.allowableSpeed
        (brakeAndThrottle_ADC_conversion cfg s adc1 adc2).1.IQValue
        (brakeAndThrottle_ADC_conversion cfg s adc1 adc2).1.brakeAndThrottle_errorMsg) := rfl

theorem adcTotal_lt (cfg : Config) (values : List Nat) : adcTotal cfg values < 65536 := by
  unfold adcTotal
  generalize List.range cfg.BRAKE_AND_THROTTLE_SAMPLES = l
  induction l using List.reverseRecOn with
  | nil => simp
  | append_singleton l a _ => simp only [List.foldl_append, List.foldl_cons, List.foldl_nil]; exact u16_lt _

theorem adcAvg_lt (cfg : Config) (values : List Nat) : adcAvg cfg values < 65536 :=
  lt_of_le_of_lt (Nat.div_le_self _ _) (adcTotal_lt cfg values)

theorem calibrate_eq_clampInto {lo hi avg : Nat} (hlo : lo < 65536) (h : lo ≤ hi)
    (havg : avg < 65536) : calibrate lo hi avg = clampInto lo hi avg := by
  unfold calibrate clampInto
  by_cases h1 : avg > hi
  · have hhi : hi < 65536 := by omega
    simp only [h1, if_true, u16_of_lt hhi, u16_of_lt hlo]
    split_ifs <;> omega
  · simp only [h1, if_false, u16_of_lt hlo]
    split_ifs <;> omega

theorem percentOf_eq {lo hi a : Nat} (h : lo < hi) (h1 : lo ≤ a) (h2 : a ≤ hi) :
    percentOf lo hi a = (a - lo) * 100 / (hi - lo) ∧ (a - lo) * 100 / (hi - lo) ≤ 100 := by
  have hle : (a - lo) * 100 / (hi - lo) ≤ 100 := by
    apply Nat.div_le_of_le_mul
    have : a - lo ≤ hi - lo := by omega
    nlinarith
  refine ⟨?_, hle⟩
  unfold percentOf u16OfInt
  have e1 : ((a : Int) - (lo : Int)) * 100 = (((a - lo) * 100 : Nat) : Int) := by
    push_cast [Nat.cast_sub h1]; ring
  have e2 : (hi : Int) - (lo : Int) = ((hi - lo : Nat) : Int) := by
    push_cast [Nat.cast_sub (le_of_lt h)]; ring
  rw [e1, e2, ← Int.ofNat_tdiv]
  have : (((a - lo) * 100 / (hi - lo) : Nat) : Int) % 65536
      = (((a - lo) * 100 / (hi - lo) % 65536 : Nat) : Int) := by norm_cast
  rw [this, Int.toNat_ofNat]
  exact Nat.mod_eq_of_lt (by omega)

theorem clampInto_bounds {lo hi x : Nat} (h : lo ≤ hi) :
    lo ≤ clampInto lo hi x ∧ clampInto lo hi x ≤ hi := by
  unfold clampInto
  constructor
  · exact le_max_left _ _
  · exact max_le h (min_le_left _ _)

theorem errorCheck_cases (lo hi err e avg : Nat) :
    errorCheck lo hi err e avg = if lo > avg ∨ avg > hi then u8 err else e := by
  unfold errorCheck
  by_cases h1 : lo > avg <;> by_cases h2 : avg > hi <;> simp [h1, h2]

theorem initLoop_errorMsg (cfg : Config) (n ii : Nat) (s : State) :
    (initLoop cfg n ii s).brakeAndThrottle_errorMsg = s.brakeAndThrottle_errorMsg := by
  induction n generalizing ii s with
  | zero => rfl
  | succ n ih => simp only [initLoop]; rw [ih]

theorem getSpeedModeParams_errorMsg (cfg : Config) (s : State) :
    (brakeAndThrottle_getSpeedModeParams cfg s).brakeAndThrottle_errorMsg
      = s.brakeAndThrottle_errorMsg := by
  unfold brakeAndThrottle_getSpeedModeParams
  split_ifs <;> rfl

theorem toggleSpeedMode_errorMsg (cfg : Config) (s : State) :
    (brakeAndThrottle_toggleSpeedMode cfg s).1.brakeAndThrottle_errorMsg
      = s.brakeAndThrottle_errorMsg := by
  unfold brakeAndThrottle_toggleSpeedMode
  simp only
  split_ifs <;> rfl

theorem toggle_errorMsg (s : State) :
    (brakeAndThrottle_toggle s).1.brakeAndThrottle_errorMsg = s.brakeAndThrottle_errorMsg := by
  unfold brakeAndThrottle_toggle
  split_ifs <;> rfl

theorem tick_errorMsg_ne (cfg : Config) (s : State) (adc1 adc2 : Nat)
    (hB : u8 cfg.BRAKE_ERROR ≠ cfg.BRAKE_AND_THROTTLE_NORMAL)
    (hT : u8 cfg.THROTTLE_ERROR ≠ cfg.BRAKE_AND_THROTTLE_NORMAL)
    (h : s.brakeAndThrottle_errorMsg ≠ cfg.BRAKE_AND_THROTTLE_NORMAL) :
    (brakeAndThrottle_ADC_conversion cfg s adc1 adc2).1.brakeAndThrottle_errorMsg
      ≠ cfg.BRAKE_AND_THROTTLE_NORMAL := by
  rw [tick_errorMsg, errorCheck_cases, errorCheck_cases]
  split_ifs <;> assumption

theorem step_errorMsg_ne (cfg : Config) (s : State) (op : Op)
    (hB : u8 cfg.BRAKE_ERROR ≠ cfg.BRAKE_AND_THROTTLE_NORMAL)
    (hT : u8 cfg.THROTTLE_ERROR ≠ cfg.BRAKE_AND_THROTTLE_NORMAL)
    (h : s.brakeAndThrottle_errorMsg ≠ cfg.BRAKE_AND_THROTTLE_NORMAL) :
    (step cfg s op).1.brakeAndThrottle_errorMsg ≠ cfg.BRAKE_AND_THROTTLE_NORMAL := by
  cases op with
  | init =>
    simp only [step, brakeAndThrottle_init]
    rw [initLoop_errorMsg, getSpeedModeParams_errorMsg]; exact h
  | start => exact h
  | stop => exact h
  | toggle => simp only [step]; rw [toggle_errorMsg]; exact h
  | setSpeedMode v => exact h
  | toggleSpeedMode => simp only [step]; rw [toggleSpeedMode_errorMsg]; exact h
  | tick adc1 adc2 => exact tick_errorMsg_ne cfg s adc1 adc2 hB hT h

/-! ## Claims -/

/-- C1: one tick delivers torque command 0 to the output callback whenever,
after that tick's error check and state-machine transition, the error status
is not NORMAL or the brake status is 1; in particular an out-of-range average
detected on a tick (with non-zero error codes) gives zero torque on that very
tick. -/
theorem zero_torque_on_fault_or_braking (cfg : Config) (s : State) (adc1 adc2 : Nat)
    (hNormal : cfg.BRAKE_AND_THROTTLE_NORMAL = 0) :
    (((brakeAndThrottle_ADC_conversion cfg s adc1 adc2).1.brakeAndThrottle_errorMsg
          ≠ cfg.BRAKE_AND_THROTTLE_NORMAL
        ∨ (brakeAndThrottle_ADC_conversion cfg s adc1 adc2).1.brakeStatus = 1) →
      (brakeAndThrottle_ADC_conversion cfg s adc1 adc2).1.IQValue = 0
      ∧ (brakeAndThrottle_ADC_conversion cfg s adc1 adc2).2.head?
          = some (Event.brakeAndThrottle_CB s.allowableSpeed 0
              (brakeAndThrottle_ADC_conversion cfg s adc1 adc2).1.brakeAndThrottle_errorMsg))
    ∧ (u8 cfg.BRAKE_ERROR ≠ 0 → u8 cfg.THROTTLE_ERROR ≠ 0 →
        (brakeOutOfRange cfg (brakeAvgOfTick cfg s adc1)
          ∨ throttleOutOfRange cfg (throttleAvgOfTick cfg s adc2)) →
        (brakeAndThrottle_ADC_conversion cfg s adc1 adc2).1.IQValue = 0) := by
  have key : ((brakeAndThrottle_ADC_conversion cfg s adc1 adc2).1.brakeAndThrottle_errorMsg ≠ 0
        ∨ (brakeAndThrottle_ADC_conversion cfg s adc1 adc2).1.brakeStatus = 1) →
      (brakeAndThrottle_ADC_conversion cfg s adc1 adc2).1.IQValue = 0 := by
    intro h
    rw [tick_IQValue]
    unfold torqueCommand
    rcases h with h | h
    · rw [if_neg h]
    · rw [if_pos h]; simp
  refine ⟨fun h => ?_, fun hB hT h => ?_⟩
  · rw [hNormal] at h
    have hz := key h
    refine ⟨hz, ?_⟩
    rw [tick_events_head, hz]
  · apply key
    left
    rw [tick_errorMsg, errorCheck_cases, errorCheck_cases]
    unfold brakeOutOfRange throttleOutOfRange at h
    by_cases ht : cfg.THROTTLE_ADC_THRESHOLD_L > throttleAvgOfTick cfg s adc2
        ∨ throttleAvgOfTick cfg s adc2 > cfg.THROTTLE_ADC_THRESHOLD_H
    · rw [if_pos ht]; exact hT
    · rw [if_neg ht]
      have hb : cfg.BRAKE_ADC_THRESHOLD_L > brakeAvgOfTick cfg s adc1
          ∨ brakeAvgOfTick cfg s adc1 > cfg.BRAKE_ADC_THRESHOLD_H := by
        rcases h with h | h
        · exact h
        · exact absurd h ht
      rw [if_pos hb]; exact hB

/-- Witness for C1: from the initialised example state a brake reading of 3000
puts the state machine into Braking on that tick, and the tick emits torque 0. -/
theorem zero_torque_on_fault_or_braking_witness :
    (brakeAndThrottle_ADC_conversion exampleConfig exampleInit 3000 1810).1.brakeStatus = 1
    ∧ (brakeAndThrottle_ADC_conversion exampleConfig exampleInit 3000 1810).1.IQValue = 0 :=
  ⟨by decide,
    ((zero_torque_on_fault_or_braking exampleConfig exampleInit 3000 1810 rfl).1
      (Or.inr (by decide))).1⟩

/-- C3: the error status is sticky.  When the two error codes differ from
NORMAL, every operation of the module (init, start, stop, toggle, setSpeedMode,
the speed-mode cycle request, a tick with any readings), and hence every
sequence of them, leaves a non-NORMAL error status non-NORMAL. -/
theorem fault_status_sticky (cfg : Config) (s : State) (ops : List Op)
    (hB : u8 cfg.BRAKE_ERROR ≠ cfg.BRAKE_AND_THROTTLE_NORMAL)
    (hT : u8 cfg.THROTTLE_ERROR ≠ cfg.BRAKE_AND_THROTTLE_NORMAL)
    (h : s.brakeAndThrottle_errorMsg ≠ cfg.BRAKE_AND_THROTTLE_NORMAL) :
    (run cfg s ops).1.brakeAndThrottle_errorMsg ≠ cfg.BRAKE_AND_THROTTLE_NORMAL := by
  induction ops generalizing s with
  | nil => exact h
  | cons op ops ih =>
    simp only [run]
    exact ih _ (step_errorMsg_ne cfg s op hB hT h)

/-- Witness for C3: a state whose error status is BRAKE_ERROR keeps a
non-NORMAL status through a cycle request, a setter call, a toggle and two
ticks with in-range readings. -/
theorem fault_status_sticky_witness :
    (run exampleConfig { exampleInit with brakeAndThrottle_errorMsg := 14 }
      [Op.toggleSpeedMode, Op.setSpeedMode 2, Op.toggle, Op.tick 150 150,
        Op.tick 150 150]).1.brakeAndThrottle_errorMsg ≠ 0 :=
  fault_status_sticky exampleConfig { exampleInit with brakeAndThrottle_errorMsg := 14 }
    [Op.toggleSpeedMode, Op.setSpeedMode 2, Op.toggle, Op.tick 150 150, Op.tick 150 150]
    (by decide) (by decide) (by decide)

/-- C4: when each channel's calibration bounds satisfy `CALIBRATE_L < CALIBRATE_H`
(and `CALIBRATE_L` is a 16-bit value), a tick from any state with any readings
produces brake and throttle percents in [0,100], each equal to
`(clampedAverage - CALIBRATE_L) * 100 / (CALIBRATE_H - CALIBRATE_L)` where
`clampedAverage` is the channel average of that tick clamped into
`[CALIBRATE_L, CALIBRATE_H]`. -/
theorem percent_mapping_bounded (cfg : Config) (s : State) (adc1 adc2 : Nat)
    (hb : cfg.BRAKE_ADC_CALIBRATE_L < cfg.BRAKE_ADC_CALIBRATE_H)
    (hb16 : cfg.BRAKE_ADC_CALIBRATE_L < 65536)
    (ht : cfg.THROTTLE_ADC_CALIBRATE_L < cfg.THROTTLE_ADC_CALIBRATE_H)
    (ht16 : cfg.THROTTLE_ADC_CALIBRATE_L < 65536) :
    (brakeAndThrottle_ADC_conversion cfg s adc1 adc2).1.brakePercent ≤ 100
    ∧ (brakeAndThrottle_ADC_conversion cfg s adc1 adc2).1.throttlePercent ≤ 100
    ∧ (brakeAndThrottle_ADC_conversion cfg s adc1 adc2).1.brakePercent
        = (clampInto cfg.BRAKE_ADC_CALIBRATE_L cfg.BRAKE_ADC_CALIBRATE_H
              (brakeAvgOfTick cfg s adc1) - cfg.BRAKE_ADC_CALIBRATE_L) * 100
            / (cfg.BRAKE_ADC_CALIBRATE_H - cfg.BRAKE_ADC_CALIBRATE_L)
    ∧ (brakeAndThrottle_ADC_conversion cfg s adc1 adc2).1.throttlePercent
        = (clampInto cfg.THROTTLE_ADC_CALIBRATE_L cfg.THROTTLE_ADC_CALIBRATE_H
              (throttleAvgOfTick cfg s adc2) - cfg.THROTTLE_ADC_CALIBRATE_L) * 100
            / (cfg.THROTTLE_ADC_CALIBRATE_H - cfg.THROTTLE_ADC_CALIBRATE_L) := by
  have eb := calibrate_eq_clampInto hb16 (le_of_lt hb) (adcAvg_lt cfg
    (pushSample cfg s.brakeADCValues s.brakeIndex (u16 adc1)).1)
  have et := calibrate_eq_clampInto ht16 (le_of_lt ht) (adcAvg_lt cfg
    (pushSample cfg s.throttleADCValues s.throttleIndex (u16 adc2)).1)
  have cb := @clampInto_bounds _ _ (brakeAvgOfTick cfg s adc1) (le_of_lt hb)
  have ct := @clampInto_bounds _ _ (throttleAvgOfTick cfg s adc2) (le_of_lt ht)
  have pb := percentOf_eq hb cb.1 cb.2
  have pt := percentOf_eq ht ct.1 ct.2
  rw [tick_brakePercent, tick_throttlePercent]
  unfold brakeAvgOfTick throttleAvgOfTick at *
  rw [eb, et, pb.1, pt.1]
  exact ⟨pb.2, pt.2, rfl, rfl⟩

/-- Witness for C4: the example configuration, with a brake reading far above
the calibration range and a throttle reading of zero. -/
theorem percent_mapping_bounded_witness :
    (brakeAndThrottle_ADC_conversion exampleConfig exampleInit 65535 0).1.brakePercent ≤ 100
    ∧ (brakeAndThrottle_ADC_conversion exampleConfig exampleInit 65535 0).1.throttlePercent
        ≤ 100 :=
  ⟨(percent_mapping_bounded exampleConfig exampleInit 65535 0
      (by decide) (by decide) (by decide) (by decide)).1,
   (percent_mapping_bounded exampleConfig exampleInit 65535 0
      (by decide) (by decide) (by decide) (by decide)).2.1⟩

/-! ## The sample window -/

theorem foldl_u16_add (l : List Nat) (a : Nat) :
    (l.foldl (fun total v => u16 (total + v)) a) % 65536 = (a + l.sum) % 65536 := by
  induction l generalizing a with
  | nil => simp
  | cons x l ih =>
    simp only [List.foldl_cons, List.sum_cons]
    rw [ih, u16]
    omega

theorem map_getD_range (w : List Nat) :
    (List.range w.length).map (fun i => w.getD i 0) = w := by
  apply List.ext_getElem
  · simp
  · intro n h1 h2
    simp [List.getElem?_eq_getElem h2]

theorem adcTotal_eq (cfg : Config) (w : List Nat)
    (hw : w.length = cfg.BRAKE_AND_THROTTLE_SAMPLES) :
    adcTotal cfg w = (0xFF + w.sum) % 65536 := by
  have h1 := adcTotal_lt cfg w
  have h2 : adcTotal cfg w
      = ((List.range w.length).map (fun i => w.getD i 0)).foldl
          (fun total v => u16 (total + v)) 0xFF := by
    unfold adcTotal
    rw [List.foldl_map, hw]
  rw [map_getD_range] at h2
  rw [← foldl_u16_add, ← h2]
  exact (Nat.mod_eq_of_lt h1).symm

theorem adcAvg_eq (cfg : Config) (w : List Nat)
    (hw : w.length = cfg.BRAKE_AND_THROTTLE_SAMPLES) :
    adcAvg cfg w = (0xFF + w.sum) % 65536 / cfg.BRAKE_AND_THROTTLE_SAMPLES := by
  unfold adcAvg
  rw [adcTotal_eq cfg w hw]

theorem ringOrder_sum (w : List Nat) (i : Nat) : (ringOrder w i).sum = w.sum := by
  unfold ringOrder
  rw [List.sum_append, Nat.add_comm, ← List.sum_append, List.take_append_drop]

theorem ringOrder_length (w : List Nat) (i : Nat) : (ringOrder w i).length = w.length := by
  unfold ringOrder
  rw [List.length_append, Nat.add_comm, ← List.length_append, List.take_append_drop]

theorem pushSample_ring (cfg : Config) (w : List Nat) (i x : Nat)
    (hN : cfg.BRAKE_AND_THROTTLE_SAMPLES ≤ 255)
    (hw : w.length = cfg.BRAKE_AND_THROTTLE_SAMPLES)
    (hi : i < cfg.BRAKE_AND_THROTTLE_SAMPLES) :
    (pushSample cfg w i x).1.length = cfg.BRAKE_AND_THROTTLE_SAMPLES
    ∧ (pushSample cfg w i x).2 < cfg.BRAKE_AND_THROTTLE_SAMPLES
    ∧ ringOrder (pushSample cfg w i x).1 (pushSample cfg w i x).2
        = (ringOrder w i).tail ++ [x] := by
  have hil : i < w.length := by omega
  have hu : u8 (i + 1) = i + 1 := u8_of_lt (by omega)
  have hset : w.set i x = w.take i ++ x :: w.drop (i + 1) := by
    rw [List.set_eq_take_append_cons_drop, if_pos hil]
  have hdne : w.drop i ≠ [] := by
    intro h
    rw [List.drop_eq_nil_iff] at h
    omega
  have htail : (ringOrder w i).tail = w.drop (i + 1) ++ w.take i := by
    unfold ringOrder
    rw [List.tail_append_of_ne_nil hdne, List.tail_drop]
  have hlt : (w.take i).length = i := by
    rw [List.length_take]; omega
  unfold pushSample
  simp only [hu]
  refine ⟨by simp [hw], ?_, ?_⟩
  · split_ifs <;> omega
  · rw [htail]
    by_cases hc : i + 1 ≥ cfg.BRAKE_AND_THROTTLE_SAMPLES
    · rw [if_pos hc]
      have hd : w.drop (i + 1) = [] := by
        rw [List.drop_eq_nil_iff]; omega
      unfold ringOrder
      rw [hset, hd]
      simp
    · rw [if_neg hc]
      unfold ringOrder
      rw [hset]
      have e1 : List.drop (i + 1) (List.take i w ++ x :: List.drop (i + 1) w)
          = List.drop (i + 1) w := by
        have := @List.drop_append _ (List.take i w) (x :: List.drop (i + 1) w) 1
        rw [hlt] at this
        rw [this]; rfl
      have e2 : List.take (i + 1) (List.take i w ++ x :: List.drop (i + 1) w)
          = List.take i w ++ [x] := by
        have := @List.take_append _ (List.take i w) (x :: List.drop (i + 1) w) 1
        rw [hlt] at this
        rw [this]; rfl
      rw [e1, e2, List.append_assoc]

theorem fifo_eq (q xs : List Nat) (hq : q ≠ []) :
    fifo q xs = (q ++ xs).drop xs.length := by
  induction xs generalizing q with
  | nil => simp [fifo]
  | cons x xs ih =>
    have h := ih (q.tail ++ [x]) (by simp)
    unfold fifo at h ⊢
    rw [List.foldl_cons, h]
    cases q with
    | nil => exact absurd rfl hq
    | cons a q => simp

theorem fifo_last (q old last : List Nat) (hq : q ≠ []) (hl : last.length = q.length) :
    fifo q (old ++ last) = last := by
  rw [fifo_eq q _ hq, ← List.append_assoc]
  have : (old ++ last).length = (q ++ old).length := by
    simp only [List.length_append]; omega
  rw [this, List.drop_left]

theorem fifo_cons (q : List Nat) (x : Nat) (xs : List Nat) :
    fifo q (x :: xs) = fifo (q.tail ++ [x]) xs := rfl

theorem runTicks_ring (cfg : Config) (hN : cfg.BRAKE_AND_THROTTLE_SAMPLES ≤ 255)
    (ins : List (Nat × Nat)) (s : State) (hs : WindowsOK cfg s) :
    WindowsOK cfg (runTicks cfg s ins)
    ∧ ringOrder (runTicks cfg s ins).brakeADCValues (runTicks cfg s ins).brakeIndex
        = fifo (ringOrder s.brakeADCValues s.brakeIndex) (ins.map (fun p => u16 p.1))
    ∧ ringOrder (runTicks cfg s ins).throttleADCValues (runTicks cfg s ins).throttleIndex
        = fifo (ringOrder s.throttleADCValues s.throttleIndex) (ins.map (fun p => u16 p.2)) := by
  induction ins generalizing s with
  | nil => exact ⟨hs, rfl, rfl⟩
  | cons p ins ih =>
    obtain ⟨adc1, adc2⟩ := p
    obtain ⟨hb, hbi, ht, hti⟩ := hs
    have pb := pushSample_ring cfg s.brakeADCValues s.brakeIndex (u16 adc1) hN hb hbi
    have pt := pushSample_ring cfg s.throttleADCValues s.throttleIndex (u16 adc2) hN ht hti
    have hs' : WindowsOK cfg (brakeAndThrottle_ADC_conversion cfg s adc1 adc2).1 :=
      ⟨pb.1, pb.2.1, pt.1, pt.2.1⟩
    have h := ih (brakeAndThrottle_ADC_conversion cfg s adc1 adc2).1 hs'
    simp only [runTicks, List.map_cons, fifo_cons]
    refine ⟨h.1, ?_, ?_⟩
    · rw [h.2.1]; exact congrArg (fun q => fifo q _) pb.2.2
    · rw [h.2.2]; exact congrArg (fun q => fifo q _) pt.2.2

theorem runTicks_stored_avg (cfg : Config) (ins : List (Nat × Nat)) (s : State)
    (hne : ins ≠ []) :
    (runTicks cfg s ins).brakeADCAvg
        = calibrate cfg.BRAKE_ADC_CALIBRATE_L cfg.BRAKE_ADC_CALIBRATE_H
            (adcAvg cfg (runTicks cfg s ins).brakeADCValues)
    ∧ (runTicks cfg s ins).throttleADCAvg
        = calibrate cfg.THROTTLE_ADC_CALIBRATE_L cfg.THROTTLE_ADC_CALIBRATE_H
            (adcAvg cfg (runTicks cfg s ins).throttleADCValues) := by
  induction ins generalizing s with
  | nil => exact absurd rfl hne
  | cons p ins ih =>
    obtain ⟨adc1, adc2⟩ := p
    cases ins with
    | nil => exact ⟨rfl, rfl⟩
    | cons q ins => exact ih _ (by simp)

theorem runTicks_avg_last (cfg : Config) (hN : cfg.BRAKE_AND_THROTTLE_SAMPLES ≤ 255)
    (s : State) (hs : WindowsOK cfg s) (old last : List (Nat × Nat))
    (hlast : last.length = cfg.BRAKE_AND_THROTTLE_SAMPLES) :
    adcAvg cfg (runTicks cfg s (old ++ last)).brakeADCValues
        = (0xFF + (last.map (fun p => u16 p.1)).sum) % 65536 / cfg.BRAKE_AND_THROTTLE_SAMPLES
    ∧ adcAvg cfg (runTicks cfg s (old ++ last)).throttleADCValues
        = (0xFF + (last.map (fun p => u16 p.2)).sum) % 65536
            / cfg.BRAKE_AND_THROTTLE_SAMPLES := by
  have h := runTicks_ring cfg hN (old ++ last) s hs
  obtain ⟨hb, hbi, ht, hti⟩ := hs
  have qb : ringOrder s.brakeADCValues s.brakeIndex ≠ [] := by
    intro e
    have := ringOrder_length s.brakeADCValues s.brakeIndex
    rw [e] at this; simp at this; omega
  have qt : ringOrder s.throttleADCValues s.throttleIndex ≠ [] := by
    intro e
    have := ringOrder_length s.throttleADCValues s.throttleIndex
    rw [e] at this; simp at this; omega
  rw [List.map_append, fifo_last _ _ _ qb (by simp [ringOrder_length, hb, hlast]),
    List.map_append, fifo_last _ _ _ qt (by simp [ringOrder_length, ht, hlast])] at h
  constructor
  · rw [adcAvg_eq cfg _ h.1.1, ← ringOrder_sum _ (runTicks cfg s (old ++ last)).brakeIndex,
      h.2.1]
  · rw [adcAvg_eq cfg _ h.1.2.2.1,
      ← ringOrder_sum _ (runTicks cfg s (old ++ last)).throttleIndex, h.2.2]

/-- C6 (evaluation of the code): on the first tick after initialisation with
both readings at 150, every slot of both windows holds 150, so the sum of the
five slots divided by five is 150, but the averages the tick computes are 201:
the accumulators start at `0xFF`, not at zero. -/
theorem average_accumulator_bias :
    (brakeAndThrottle_ADC_conversion exampleConfig exampleInit 150 150).1.brakeADCValues
        = [150, 150, 150, 150, 150]
    ∧ (brakeAndThrottle_ADC_conversion exampleConfig exampleInit 150 150).1.throttleADCValues
        = [150, 150, 150, 150, 150]
    ∧ ([150, 150, 150, 150, 150] : List Nat).sum / 5 = 150
    ∧ brakeAvgOfTick exampleConfig exampleInit 150 = 201
    ∧ throttleAvgOfTick exampleConfig exampleInit 150 = 201
    ∧ (brakeAndThrottle_ADC_conversion exampleConfig exampleInit 150 150).1.brakeADCAvg = 201
    ∧ (brakeAndThrottle_ADC_conversion exampleConfig exampleInit 150 150).1.throttleADCAvg
        = 201 := by
  decide

theorem runTicks_ring_last (cfg : Config) (hN : cfg.BRAKE_AND_THROTTLE_SAMPLES ≤ 255)
    (s : State) (hs : WindowsOK cfg s) (old last : List (Nat × Nat))
    (hlast : last.length = cfg.BRAKE_AND_THROTTLE_SAMPLES) :
    ringOrder (runTicks cfg s (old ++ last)).brakeADCValues
        (runTicks cfg s (old ++ last)).brakeIndex = last.map (fun p => u16 p.1)
    ∧ ringOrder (runTicks cfg s (old ++ last)).throttleADCValues
        (runTicks cfg s (old ++ last)).throttleIndex = last.map (fun p => u16 p.2) := by
  have h := runTicks_ring cfg hN (old ++ last) s hs
  obtain ⟨hb, hbi, ht, hti⟩ := hs
  have qb : ringOrder s.brakeADCValues s.brakeIndex ≠ [] := by
    intro e
    have := ringOrder_length s.brakeADCValues s.brakeIndex
    rw [e] at this; simp at this; omega
  have qt : ringOrder s.throttleADCValues s.throttleIndex ≠ [] := by
    intro e
    have := ringOrder_length s.throttleADCValues s.throttleIndex
    rw [e] at this; simp at this; omega
  rw [List.map_append, fifo_last _ _ _ qb (by simp [ringOrder_length, hb, hlast]),
    List.map_append, fifo_last _ _ _ qt (by simp [ringOrder_length, ht, hlast])] at h
  exact ⟨h.2.1, h.2.2⟩

theorem runTicks_stored_last (cfg : Config) (hN : cfg.BRAKE_AND_THROTTLE_SAMPLES ≤ 255)
    (s : State) (hs : WindowsOK cfg s) (old last : List (Nat × Nat))
    (hlast : last.length = cfg.BRAKE_AND_THROTTLE_SAMPLES) :
    (runTicks cfg s (old ++ last)).brakeADCAvg
        = calibrate cfg.BRAKE_ADC_CALIBRATE_L cfg.BRAKE_ADC_CALIBRATE_H
            ((0xFF + (last.map (fun p => u16 p.1)).sum) % 65536
              / cfg.BRAKE_AND_THROTTLE_SAMPLES)
    ∧ (runTicks cfg s (old ++ last)).throttleADCAvg
        = calibrate cfg.THROTTLE_ADC_CALIBRATE_L cfg.THROTTLE_ADC_CALIBRATE_H
            ((0xFF + (last.map (fun p => u16 p.2)).sum) % 65536
              / cfg.BRAKE_AND_THROTTLE_SAMPLES) := by
  have a := runTicks_avg_last cfg hN s hs old last hlast
  have hpos : 0 < last.length := by
    rw [hlast]; exact lt_of_le_of_lt (Nat.zero_le _) hs.2.1
  have hne : old ++ last ≠ [] := by
    intro e; rw [List.append_eq_nil] at e; rw [e.2] at hpos; exact absurd hpos (by simp)
  have st := runTicks_stored_avg cfg (old ++ last) s hne
  exact ⟨by rw [st.1, a.1], by rw [st.2, a.2]⟩

/-- C7: ring overwrite.  With at most 255 samples per window, from every
initial state whose windows have `BRAKE_AND_THROTTLE_SAMPLES` slots and whose
indices are in range, after every run of ticks that ends with the
`BRAKE_AND_THROTTLE_SAMPLES` ticks `last1`:
each window, read from the slot the next push overwrites, holds exactly the
last `BRAKE_AND_THROTTLE_SAMPLES` readings of its own channel, oldest first
(each push has overwritten the oldest slot), and the indices are still in
range; the average computed on the last tick is
`(0xFF + sum of those readings) mod 2^16 / BRAKE_AND_THROTTLE_SAMPLES` for
that channel, and the stored average is its calibration clamp.  Hence for a
second run from another initial state with other older readings: if the two
runs agree on the last readings of the brake channel, the brake averages
coincide whatever the throttle readings are, and likewise for the throttle
channel. -/
theorem ring_average_depends_on_last_samples (cfg : Config) (s1 s2 : State)
    (old1 old2 last1 last2 : List (Nat × Nat))
    (hN : cfg.BRAKE_AND_THROTTLE_SAMPLES ≤ 255)
    (h1 : WindowsOK cfg s1) (h2 : WindowsOK cfg s2)
    (hlast1 : last1.length = cfg.BRAKE_AND_THROTTLE_SAMPLES)
    (hlast2 : last2.length = cfg.BRAKE_AND_THROTTLE_SAMPLES) :
    (ringOrder (runTicks cfg s1 (old1 ++ last1)).brakeADCValues
          (runTicks cfg s1 (old1 ++ last1)).brakeIndex = last1.map (fun p => u16 p.1)
      ∧ ringOrder (runTicks cfg s1 (old1 ++ last1)).throttleADCValues
          (runTicks cfg s1 (old1 ++ last1)).throttleIndex = last1.map (fun p => u16 p.2)
      ∧ WindowsOK cfg (runTicks cfg s1 (old1 ++ last1)))
    ∧ (adcAvg cfg (runTicks cfg s1 (old1 ++ last1)).brakeADCValues
          = (0xFF + (last1.map (fun p => u16 p.1)).sum) % 65536
              / cfg.BRAKE_AND_THROTTLE_SAMPLES
      ∧ adcAvg cfg (runTicks cfg s1 (old1 ++ last1)).throttleADCValues
          = (0xFF + (last1.map (fun p => u16 p.2)).sum) % 65536
              / cfg.BRAKE_AND_THROTTLE_SAMPLES
      ∧ (runTicks cfg s1 (old1 ++ last1)).brakeADCAvg
          = calibrate cfg.BRAKE_ADC_CALIBRATE_L cfg.BRAKE_ADC_CALIBRATE_H
              ((0xFF + (last1.map (fun p => u16 p.1)).sum) % 65536
                / cfg.BRAKE_AND_THROTTLE_SAMPLES)
      ∧ (runTicks cfg s1 (old1 ++ last1)).throttleADCAvg
          = calibrate cfg.THROTTLE_ADC_CALIBRATE_L cfg.THROTTLE_ADC_CALIBRATE_H
              ((0xFF + (last1.map (fun p => u16 p.2)).sum) % 65536
                / cfg.BRAKE_AND_THROTTLE_SAMPLES))
    ∧ (last1.map (fun p => u16 p.1) = last2.map (fun p => u16 p.1) →
        adcAvg cfg (runTicks cfg s1 (old1 ++ last1)).brakeADCValues
            = adcAvg cfg (runTicks cfg s2 (old2 ++ last2)).brakeADCValues
        ∧ (runTicks cfg s1 (old1 ++ last1)).brakeADCAvg
            = (runTicks cfg s2 (old2 ++ last2)).brakeADCAvg)
    ∧ (last1.map (fun p => u16 p.2) = last2.map (fun p => u16 p.2) →
        adcAvg cfg (runTicks cfg s1 (old1 ++ last1)).throttleADCValues
            = adcAvg cfg (runTicks cfg s2 (old2 ++ last2)).throttleADCValues
        ∧ (runTicks cfg s1 (old1 ++ last1)).throttleADCAvg
            = (runTicks cfg s2 (old2 ++ last2)).throttleADCAvg) := by
  have r1 := runTicks_ring_last cfg hN s1 h1 old1 last1 hlast1
  have a1 := runTicks_avg_last cfg hN s1 h1 old1 last1 hlast1
  have a2 := runTicks_avg_last cfg hN s2 h2 old2 last2 hlast2
  have t1 := runTicks_stored_last cfg hN s1 h1 old1 last1 hlast1
  have t2 := runTicks_stored_last cfg hN s2 h2 old2 last2 hlast2
  refine ⟨⟨r1.1, r1.2, (runTicks_ring cfg hN _ s1 h1).1⟩, ⟨a1.1, a1.2, t1.1, t1.2⟩,
    fun e => ?_, fun e => ?_⟩
  · exact ⟨by rw [a1.1, a2.1, e], by rw [t1.1, t2.1, e]⟩
  · exact ⟨by rw [a1.2, a2.2, e], by rw [t1.2, t2.2, e]⟩

/-- Witness for C7: two runs of the example configuration, from different
window contents and indices, with different older readings and different
throttle readings throughout, ending with the same five brake readings
200, 210, 220, 230, 240: both store the brake average (255 + 1100) / 5 = 271,
and the first run's brake window, read from its index, is exactly those five
readings. -/
theorem ring_average_depends_on_last_samples_witness :
    (runTicks exampleConfig exampleInit
        ([(9, 9), (4000, 7)]
          ++ [(200, 300), (210, 310), (220, 320), (230, 330), (240, 340)])).brakeADCAvg
      = (runTicks exampleConfig
          { exampleInit with
            brakeADCValues := [1, 2, 3, 4, 5], brakeIndex := 3,
            throttleADCValues := [60000, 0, 7, 7, 7], throttleIndex := 4 }
          ([] ++ [(200, 2500), (210, 150), (220, 0), (230, 1810), (240, 900)])).brakeADCAvg
    ∧ (runTicks exampleConfig exampleInit
        ([(9, 9), (4000, 7)]
          ++ [(200, 300), (210, 310), (220, 320), (230, 330), (240, 340)])).brakeADCAvg = 271
    ∧ ringOrder
        (runTicks exampleConfig exampleInit
          ([(9, 9), (4000, 7)]
            ++ [(200, 300), (210, 310), (220, 320), (230, 330), (240, 340)])).brakeADCValues
        (runTicks exampleConfig exampleInit
          ([(9, 9), (4000, 7)]
            ++ [(200, 300), (210, 310), (220, 320), (230, 330), (240, 340)])).brakeIndex
      = [200, 210, 220, 230, 240] :=
  ⟨((ring_average_depends_on_last_samples exampleConfig exampleInit
        { exampleInit with
          brakeADCValues := [1, 2, 3, 4, 5], brakeIndex := 3,
          throttleADCValues := [60000, 0, 7, 7, 7], throttleIndex := 4 }
        [(9, 9), (4000, 7)] []
        [(200, 300), (210, 310), (220, 320), (230, 330), (240, 340)]
        [(200, 2500), (210, 150), (220, 0), (230, 1810), (240, 900)]
        (by decide) (by decide) (by decide) (by decide) (by decide)).2.2.1 (by decide)).2,
    by decide, by decide⟩

/-- C9: when after the tick the error status is NORMAL and the brake status is
Released (0), the torque command of the tick is
`BRAKE_AND_THROTTLE_TORQUEIQ_MAX * reductionRatio * throttlePercent / 10000`
without wrap-around (given `TORQUEIQ_MAX < 2^16`, `reductionRatio ≤ 100` and
`throttlePercent ≤ 100`), with this tick's throttle percent, and the output
callback receives `(allowableSpeed, that torque, error status)`. -/
theorem torque_formula_when_released (cfg : Config) (s : State) (adc1 adc2 : Nat)
    (hNormal : cfg.BRAKE_AND_THROTTLE_NORMAL = 0)
    (hmax : cfg.BRAKE_AND_THROTTLE_TORQUEIQ_MAX < 65536)
    (hratio : s.reductionRatio ≤ 100)
    (hpercent : (brakeAndThrottle_ADC_conversion cfg s adc1 adc2).1.throttlePercent ≤ 100)
    (herr : (brakeAndThrottle_ADC_conversion cfg s adc1 adc2).1.brakeAndThrottle_errorMsg
      = cfg.BRAKE_AND_THROTTLE_NORMAL)
    (hbrake : (brakeAndThrottle_ADC_conversion cfg s adc1 adc2).1.brakeStatus = 0) :
    (brakeAndThrottle_ADC_conversion cfg s adc1 adc2).1.IQValue
        = cfg.BRAKE_AND_THROTTLE_TORQUEIQ_MAX * s.reductionRatio
            * (brakeAndThrottle_ADC_conversion cfg s adc1 adc2).1.throttlePercent / 10000
    ∧ (brakeAndThrottle_ADC_conversion cfg s adc1 adc2).2.head?
        = some (Event.brakeAndThrottle_CB s.allowableSpeed
            (cfg.BRAKE_AND_THROTTLE_TORQUEIQ_MAX * s.reductionRatio
              * (brakeAndThrottle_ADC_conversion cfg s adc1 adc2).1.throttlePercent / 10000)
            cfg.BRAKE_AND_THROTTLE_NORMAL)
    ∧ (brakeAndThrottle_ADC_conversion cfg s adc1 adc2).1.reductionRatio = s.reductionRatio
    ∧ (brakeAndThrottle_ADC_conversion cfg s adc1 adc2).1.allowableSpeed = s.allowableSpeed := by
  have hiq : (brakeAndThrottle_ADC_conversion cfg s adc1 adc2).1.IQValue
      = cfg.BRAKE_AND_THROTTLE_TORQUEIQ_MAX * s.reductionRatio
          * (brakeAndThrottle_ADC_conversion cfg s adc1 adc2).1.throttlePercent / 10000 := by
    rw [tick_IQValue]
    unfold torqueCommand
    rw [herr, hNormal, hbrake]
    simp only [if_true, if_false, Nat.zero_ne_one]
    apply u16_of_lt
    apply Nat.div_lt_of_lt_mul
    have h1 : cfg.BRAKE_AND_THROTTLE_TORQUEIQ_MAX * s.reductionRatio
        ≤ 65535 * 100 := Nat.mul_le_mul (by omega) hratio
    have h2 := Nat.mul_le_mul h1 hpercent
    omega
  refine ⟨hiq, ?_, rfl, rfl⟩
  rw [tick_events_head, hiq, herr]

/-- Witness for C9: the first tick after initialisation of the example
configuration with the brake idle and a throttle reading of 1810 (mode Leisure,
ratio 70, throttle percent 13) commands torque 20000 * 70 * 13 / 10000 = 1820. -/
theorem torque_formula_when_released_witness :
    (brakeAndThrottle_ADC_conversion exampleConfig exampleInit 150 1810).1.IQValue = 1820 :=
  (torque_formula_when_released exampleConfig exampleInit 150 1810 rfl (by decide) (by decide)
    (by decide) (by decide) (by decide)).1

/-! ## Deferred application of a speed-mode change -/

theorem tickEvents_append (cfg : Config) (a b : List (Nat × Nat)) (s : State) :
    tickEvents cfg s (a ++ b) = tickEvents cfg s a ++ tickEvents cfg (runTicks cfg s a) b := by
  induction a generalizing s with
  | nil => rfl
  | cons p a ih =>
    obtain ⟨adc1, adc2⟩ := p
    show (brakeAndThrottle_ADC_conversion cfg s adc1 adc2).2
        :: tickEvents cfg (brakeAndThrottle_ADC_conversion cfg s adc1 adc2).1 (a ++ b) = _
    rw [ih]
    rfl

theorem runTicks_append (cfg : Config) (a b : List (Nat × Nat)) (s : State) :
    runTicks cfg s (a ++ b) = runTicks cfg (runTicks cfg s a) b := by
  induction a generalizing s with
  | nil => rfl
  | cons p a ih =>
    obtain ⟨adc1, adc2⟩ := p
    show runTicks cfg (brakeAndThrottle_ADC_conversion cfg s adc1 adc2).1 (a ++ b) = _
    rw [ih]
    rfl

theorem tick_apply (cfg : Config) (s : State) (adc1 adc2 : Nat) :
    applyOf (brakeAndThrottle_ADC_conversion cfg s adc1 adc2).2
        = (if s.speedModeChgFlag = 1 ∧ u16 adc2 ≤ cfg.THROTTLE_ADC_CALIBRATE_L
            then some (s.speedModeIQmax, s.allowableSpeed, s.rampRate) else none)
    ∧ (brakeAndThrottle_ADC_conversion cfg s adc1 adc2).1.speedModeChgFlag
        = (if s.speedModeChgFlag = 1 ∧ u16 adc2 ≤ cfg.THROTTLE_ADC_CALIBRATE_L
            then 0 else s.speedModeChgFlag) := by
  unfold brakeAndThrottle_ADC_conversion
  by_cases h : s.speedModeChgFlag = 1 ∧ u16 adc2 ≤ cfg.THROTTLE_ADC_CALIBRATE_L
  · simp [h, applyOf]
  · simp [h, applyOf]

theorem tick_params (cfg : Config) (s : State) (adc1 adc2 : Nat) :
    (brakeAndThrottle_ADC_conversion cfg s adc1 adc2).1.speedModeIQmax = s.speedModeIQmax
    ∧ (brakeAndThrottle_ADC_conversion cfg s adc1 adc2).1.allowableSpeed = s.allowableSpeed
    ∧ (brakeAndThrottle_ADC_conversion cfg s adc1 adc2).1.rampRate = s.rampRate :=
  ⟨rfl, rfl, rfl⟩

theorem no_apply_when_not_pending (cfg : Config) (ins : List (Nat × Nat)) (s : State)
    (h : s.speedModeChgFlag = 0) :
    (tickEvents cfg s ins).map applyOf = List.replicate ins.length none
    ∧ (runTicks cfg s ins).speedModeChgFlag = 0 := by
  induction ins generalizing s with
  | nil => exact ⟨rfl, h⟩
  | cons p ins ih =>
    obtain ⟨adc1, adc2⟩ := p
    have t := tick_apply cfg s adc1 adc2
    have hno : ¬ (s.speedModeChgFlag = 1 ∧ u16 adc2 ≤ cfg.THROTTLE_ADC_CALIBRATE_L) := by
      rw [h]; simp
    rw [if_neg hno, if_neg hno] at t
    have h' := ih (brakeAndThrottle_ADC_conversion cfg s adc1 adc2).1 (by rw [t.2]; exact h)
    simp only [tickEvents, runTicks, List.map_cons, List.length_cons, List.replicate_succ]
    exact ⟨by rw [t.1, h'.1], h'.2⟩

theorem pending_while_throttle_engaged (cfg : Config) (ins : List (Nat × Nat)) (s : State)
    (h : s.speedModeChgFlag = 1)
    (hins : ∀ p ∈ ins, cfg.THROTTLE_ADC_CALIBRATE_L < u16 p.2) :
    (tickEvents cfg s ins).map applyOf = List.replicate ins.length none
    ∧ (runTicks cfg s ins).speedModeChgFlag = 1
    ∧ (runTicks cfg s ins).speedModeIQmax = s.speedModeIQmax
    ∧ (runTicks cfg s ins).allowableSpeed = s.allowableSpeed
    ∧ (runTicks cfg s ins).rampRate = s.rampRate := by
  induction ins generalizing s with
  | nil => exact ⟨rfl, h, rfl, rfl, rfl⟩
  | cons p ins ih =>
    obtain ⟨adc1, adc2⟩ := p
    have t := tick_apply cfg s adc1 adc2
    have hp : cfg.THROTTLE_ADC_CALIBRATE_L < u16 adc2 := hins (adc1, adc2) (by simp)
    have hno : ¬ (s.speedModeChgFlag = 1 ∧ u16 adc2 ≤ cfg.THROTTLE_ADC_CALIBRATE_L) := by
      intro hc; omega
    rw [if_neg hno, if_neg hno] at t
    have h' := ih (brakeAndThrottle_ADC_conversion cfg s adc1 adc2).1 (by rw [t.2]; exact h)
      (fun q hq => hins q (List.mem_cons_of_mem _ hq))
    simp only [tickEvents, runTicks, List.map_cons, List.length_cons, List.replicate_succ]
    exact ⟨by rw [t.1, h'.1], h'.2.1, h'.2.2.1, h'.2.2.2.1, h'.2.2.2.2⟩

theorem apply_on_first_idle_tick (cfg : Config) (s0 : State) (pre post : List (Nat × Nat))
    (adc1 adc2 : Nat) (h : s0.speedModeChgFlag = 1)
    (hpre : ∀ p ∈ pre, cfg.THROTTLE_ADC_CALIBRATE_L < u16 p.2)
    (hidle : u16 adc2 ≤ cfg.THROTTLE_ADC_CALIBRATE_L) :
    (tickEvents cfg s0 (pre ++ (adc1, adc2) :: post)).map applyOf
        = List.replicate pre.length none
          ++ some (s0.speedModeIQmax, s0.allowableSpeed, s0.rampRate)
            :: List.replicate post.length none
    ∧ (runTicks cfg s0 pre).speedModeChgFlag = 1
    ∧ (runTicks cfg s0 (pre ++ [(adc1, adc2)])).speedModeChgFlag = 0
    ∧ (runTicks cfg s0 (pre ++ (adc1, adc2) :: post)).speedModeChgFlag = 0 := by
  have hp := pending_while_throttle_engaged cfg pre s0 h hpre
  have t := tick_apply cfg (runTicks cfg s0 pre) adc1 adc2
  rw [if_pos ⟨hp.2.1, hidle⟩, if_pos ⟨hp.2.1, hidle⟩, hp.2.2.1, hp.2.2.2.1, hp.2.2.2.2] at t
  have hq := no_apply_when_not_pending cfg post
    (brakeAndThrottle_ADC_conversion cfg (runTicks cfg s0 pre) adc1 adc2).1 t.2
  refine ⟨?_, hp.2.1, ?_, ?_⟩
  · rw [tickEvents_append, List.map_append, hp.1]
    simp only [tickEvents, List.map_cons]
    rw [t.1, hq.1]
  · rw [runTicks_append]; exact t.2
  · rw [runTicks_append]; exact hq.2

theorem toggleSpeedMode_flag (cfg : Config) (s : State) :
    (brakeAndThrottle_toggleSpeedMode cfg s).1.speedModeChgFlag = 1 := by
  unfold brakeAndThrottle_toggleSpeedMode
  simp only
  split_ifs <;> rfl

/-- C10: deferred apply.  After a mode-cycle request (which sets
`speedModeChgFlag = 1`), in every run of ticks whose first throttle reading at
or below `THROTTLE_ADC_CALIBRATE_L` comes after `pre` ticks with the throttle
reading above it, `motorcontrol_speedModeChgCB` is called on no tick of `pre`,
is called on that first idle tick with the current
`(speedModeIQmax, allowableSpeed, rampRate)`, and is called on no later tick;
the flag stays 1 through `pre` and is 0 from the idle tick on. -/
theorem deferred_apply_exactly_once (cfg : Config) (s : State) (pre post : List (Nat × Nat))
    (adc1 adc2 : Nat)
    (hpre : ∀ p ∈ pre, cfg.THROTTLE_ADC_CALIBRATE_L < u16 p.2)
    (hidle : u16 adc2 ≤ cfg.THROTTLE_ADC_CALIBRATE_L) :
    (brakeAndThrottle_toggleSpeedMode cfg s).1.speedModeChgFlag = 1
    ∧ (tickEvents cfg (brakeAndThrottle_toggleSpeedMode cfg s).1
          (pre ++ (adc1, adc2) :: post)).map applyOf
        = List.replicate pre.length none
          ++ some ((brakeAndThrottle_toggleSpeedMode cfg s).1.speedModeIQmax,
                (brakeAndThrottle_toggleSpeedMode cfg s).1.allowableSpeed,
                (brakeAndThrottle_toggleSpeedMode cfg s).1.rampRate)
            :: List.replicate post.length none
    ∧ (runTicks cfg (brakeAndThrottle_toggleSpeedMode cfg s).1 pre).speedModeChgFlag = 1
    ∧ (runTicks cfg (brakeAndThrottle_toggleSpeedMode cfg s).1
          (pre ++ [(adc1, adc2)])).speedModeChgFlag = 0
    ∧ (runTicks cfg (brakeAndThrottle_toggleSpeedMode cfg s).1
          (pre ++ (adc1, adc2) :: post)).speedModeChgFlag = 0 :=
  ⟨toggleSpeedMode_flag cfg s,
    apply_on_first_idle_tick cfg _ pre post adc1 adc2 (toggleSpeedMode_flag cfg s) hpre hidle⟩

/-- Witness for C10: on the example configuration, a cycle request made with
the throttle engaged, then two ticks with the throttle still engaged, one idle
tick and two more ticks: the apply is called on the third tick only, with the
parameters of mode Leisure. -/
theorem deferred_apply_exactly_once_witness :
    (tickEvents exampleConfig
        (brakeAndThrottle_toggleSpeedMode exampleConfig
          { exampleInit with adc2Result := 1810 }).1
        ([(150, 1810), (150, 900)] ++ (150, 150) :: [(150, 100), (150, 2000)])).map applyOf
      = [none, none, some (14000, 400, 2000), none, none] :=
  (deferred_apply_exactly_once exampleConfig { exampleInit with adc2Result := 1810 }
    [(150, 1810), (150, 900)] [(150, 100), (150, 2000)] 150 150
    (by decide) (by decide)).2.1

/-! ## The brake state machine reads the throttle percent of the previous tick -/

theorem braking_release_condition (cfg : Config) (s : State) (adc1 adc2 : Nat)
    (hbraking : s.brakeStatus = 1) (hlatch : 0 < s.throttlePercent0)
    (hreleased : (brakeAndThrottle_ADC_conversion cfg s adc1 adc2).1.brakeStatus = 0) :
    (brakeAndThrottle_ADC_conversion cfg s adc1 adc2).1.brakePercent
        ≤ cfg.BRAKEPERCENTTHRESHOLD
    ∧ s.throttlePercent * cfg.THROTTLEPERCENTREDUCTION_DEN
        < s.throttlePercent0 * cfg.THROTTLEPERCENTREDUCTION_NUM := by
  rw [tick_brakeStatus] at hreleased
  unfold brakeStateMachine at hreleased
  by_cases hA : s.throttlePercent * cfg.THROTTLEPERCENTREDUCTION_DEN
      ≥ s.throttlePercent0 * cfg.THROTTLEPERCENTREDUCTION_NUM
  · have hz : ¬ (s.throttlePercent0 = 0 ∧
        (brakeAndThrottle_ADC_conversion cfg s adc1 adc2).1.brakePercent
          ≤ cfg.BRAKEPERCENTTHRESHOLD) := by
      intro hc; omega
    rw [if_pos ⟨hbraking, hA⟩, if_neg hz] at hreleased
    exact absurd hreleased Nat.one_ne_zero
  · have h1 : ¬ (s.brakeStatus = 1 ∧ s.throttlePercent * cfg.THROTTLEPERCENTREDUCTION_DEN
        ≥ s.throttlePercent0 * cfg.THROTTLEPERCENTREDUCTION_NUM) := fun hc => hA hc.2
    have h2 : ¬ (s.brakeStatus = 0 ∧
        (brakeAndThrottle_ADC_conversion cfg s adc1 adc2).1.brakePercent
          > cfg.BRAKEPERCENTTHRESHOLD) := by
      intro hc; omega
    rw [if_neg h1, if_neg h2] at hreleased
    by_cases hC : s.throttlePercent * cfg.THROTTLEPERCENTREDUCTION_DEN
          < s.throttlePercent0 * cfg.THROTTLEPERCENTREDUCTION_NUM
        ∧ (brakeAndThrottle_ADC_conversion cfg s adc1 adc2).1.brakePercent
          ≤ cfg.BRAKEPERCENTTHRESHOLD
    · exact ⟨hC.2, hC.1⟩
    · rw [if_neg hC] at hreleased
      simp only at hreleased
      omega

/-- C2 (evaluation of the code): in the ride `hysteresisScenario` from the
initialised example state, the state machine enters Braking on tick 6 with
latch 60; on ticks 7 to 10 the brake percent is 21 (above the threshold 15) and
on tick 11 the throttle percent is 36 (not below 60 * 1/2 = 30), so on no tick
after the onset do `brakePercent ≤ 15` and `throttlePercent < 30` hold together;
yet the brake status after tick 11 is Released and torque 5040 is commanded.
Each entry is `(brakeStatus, throttlePercent0, brakePercent, throttlePercent, IQValue)`
after the tick. -/
theorem hysteresis_release_uses_previous_throttle :
    (tickStates exampleConfig exampleInit hysteresisScenario).map observe
      = [(0, 0, 1, 13, 1820), (0, 0, 1, 25, 3500), (0, 0, 1, 36, 5040), (0, 0, 1, 48, 6720),
         (0, 0, 1, 60, 8400), (1, 60, 21, 60, 0), (1, 60, 21, 48, 0), (1, 60, 21, 36, 0),
         (1, 60, 21, 25, 0), (1, 60, 21, 25, 0), (0, 60, 1, 36, 5040)] := by
  decide

/-- C5 (evaluation of the code): in the ride `releaseScenario` from the
initialised example state, the state machine is Braking with latch 60 after
tick 10; tick 11 has throttle percent 25 and brake percent 5, and the brake
status after tick 11 is still Braking (the transition read the throttle percent
34 of tick 10); the release happens one tick later.  And a first tick with both
readings at 3000 from the initialised state enters Braking with the latch set
to 0, the throttle percent stored before the tick, while the tick's own
throttle percent is 21. -/
theorem transition_reads_previous_throttle :
    (tickStates exampleConfig exampleInit releaseScenario).map observe
      = [(0, 0, 1, 13, 1820), (0, 0, 1, 25, 3500), (0, 0, 1, 36, 5040), (0, 0, 1, 48, 6720),
         (0, 0, 1, 60, 8400), (1, 60, 21, 60, 0), (1, 60, 22, 53, 0), (1, 60, 23, 47, 0),
         (1, 60, 23, 40, 0), (1, 60, 24, 34, 0), (1, 60, 5, 25, 0), (0, 60, 5, 22, 3080)]
    ∧ observe exampleInit = (0, 0, 0, 0, 0)
    ∧ observe (brakeAndThrottle_ADC_conversion exampleConfig exampleInit 3000 3000).1
      = (1, 0, 21, 21, 0) := by
  decide

/-! ## Which error code is reported -/

theorem tick_errorMsg_cases (cfg : Config) (s : State) (adc1 adc2 : Nat) :
    (brakeAndThrottle_ADC_conversion cfg s adc1 adc2).1.brakeAndThrottle_errorMsg
      = if throttleOutOfRange cfg (throttleAvgOfTick cfg s adc2) then u8 cfg.THROTTLE_ERROR
        else if brakeOutOfRange cfg (brakeAvgOfTick cfg s adc1) then u8 cfg.BRAKE_ERROR
        else s.brakeAndThrottle_errorMsg := by
  rw [tick_errorMsg, errorCheck_cases, errorCheck_cases]
  rfl

theorem runTicks_errorMsg_ne (cfg : Config) (ins : List (Nat × Nat)) (s : State)
    (hB : u8 cfg.BRAKE_ERROR ≠ cfg.BRAKE_AND_THROTTLE_NORMAL)
    (hT : u8 cfg.THROTTLE_ERROR ≠ cfg.BRAKE_AND_THROTTLE_NORMAL)
    (h : s.brakeAndThrottle_errorMsg ≠ cfg.BRAKE_AND_THROTTLE_NORMAL) :
    (runTicks cfg s ins).brakeAndThrottle_errorMsg ≠ cfg.BRAKE_AND_THROTTLE_NORMAL := by
  induction ins generalizing s with
  | nil => exact h
  | cons p ins ih =>
    obtain ⟨adc1, adc2⟩ := p
    exact ih _ (tick_errorMsg_ne cfg s adc1 adc2 hB hT h)

theorem brake_error_kept (cfg : Config) (ins : List (Nat × Nat)) (s : State)
    (h : s.brakeAndThrottle_errorMsg = u8 cfg.BRAKE_ERROR)
    (hin : throttleInRangeAlong cfg s ins) :
    (runTicks cfg s ins).brakeAndThrottle_errorMsg = u8 cfg.BRAKE_ERROR := by
  induction ins generalizing s with
  | nil => exact h
  | cons p ins ih =>
    obtain ⟨adc1, adc2⟩ := p
    obtain ⟨h1, h2⟩ := hin
    refine ih _ ?_ h2
    rw [tick_errorMsg_cases, if_neg h1]
    split_ifs
    · rfl
    · exact h

theorem throttle_error_kept (cfg : Config) (ins : List (Nat × Nat)) (s : State)
    (h : s.brakeAndThrottle_errorMsg = u8 cfg.THROTTLE_ERROR)
    (hin : brakeInRangeAlong cfg s ins) :
    (runTicks cfg s ins).brakeAndThrottle_errorMsg = u8 cfg.THROTTLE_ERROR := by
  induction ins generalizing s with
  | nil => exact h
  | cons p ins ih =>
    obtain ⟨adc1, adc2⟩ := p
    obtain ⟨h1, h2⟩ := hin
    refine ih _ ?_ h2
    rw [tick_errorMsg_cases, if_neg h1]
    split_ifs
    · rfl
    · exact h

/-- C8 (counterexample): on the example configuration with both readings
pinned at 0, the brake average of the fourth tick (81) is below
`BRAKE_ADC_THRESHOLD_L`, but the error status after that tick is THROTTLE_ERROR
(12), not BRAKE_ERROR (14).  And with the throttle reading pinned at 0 for four
ticks the throttle average of the fourth tick is out of range, yet after four
more ticks with the throttle back at 150 and the brake reading at 0 the error
status is BRAKE_ERROR, not THROTTLE_ERROR. -/
theorem fault_kind_not_persistent :
    brakeOutOfRange exampleConfig
        (brakeAvgOfTick exampleConfig
          (runTicks exampleConfig exampleInit [(0, 0), (0, 0), (0, 0)]) 0)
    ∧ (runTicks exampleConfig exampleInit
          [(0, 0), (0, 0), (0, 0), (0, 0)]).brakeAndThrottle_errorMsg
        ≠ exampleConfig.BRAKE_ERROR
    ∧ throttleOutOfRange exampleConfig
        (throttleAvgOfTick exampleConfig
          (runTicks exampleConfig exampleInit [(150, 0), (150, 0), (150, 0)]) 0)
    ∧ (runTicks exampleConfig exampleInit
          [(150, 0), (150, 0), (150, 0), (150, 0), (0, 150), (0, 150), (0, 150),
            (0, 150)]).brakeAndThrottle_errorMsg
        ≠ exampleConfig.THROTTLE_ERROR := by
  decide

/-- C8 (amended): with 8-bit error codes different from NORMAL, once a
channel's average falls outside its accepted range on a tick, the error status
is not NORMAL after that tick and after every subsequent tick, whatever the
later readings; it is that channel's error code after each of those ticks for
as long as the other channel's average has stayed inside its own range (for the
brake channel from the faulting tick on, for the throttle channel on the ticks
after the faulting one). -/
theorem fault_kind_persistence (cfg : Config) (s : State) (adc1 adc2 : Nat)
    (rest : List (Nat × Nat))
    (hB : cfg.BRAKE_ERROR < 256) (hT : cfg.THROTTLE_ERROR < 256)
    (hBn : cfg.BRAKE_ERROR ≠ cfg.BRAKE_AND_THROTTLE_NORMAL)
    (hTn : cfg.THROTTLE_ERROR ≠ cfg.BRAKE_AND_THROTTLE_NORMAL) :
    (brakeOutOfRange cfg (brakeAvgOfTick cfg s adc1) →
      (runTicks cfg s ((adc1, adc2) :: rest)).brakeAndThrottle_errorMsg
          ≠ cfg.BRAKE_AND_THROTTLE_NORMAL
      ∧ (throttleInRangeAlong cfg s ((adc1, adc2) :: rest) →
          (runTicks cfg s ((adc1, adc2) :: rest)).brakeAndThrottle_errorMsg = cfg.BRAKE_ERROR))
    ∧ (throttleOutOfRange cfg (throttleAvgOfTick cfg s adc2) →
      (runTicks cfg s ((adc1, adc2) :: rest)).brakeAndThrottle_errorMsg
          ≠ cfg.BRAKE_AND_THROTTLE_NORMAL
      ∧ (brakeInRangeAlong cfg (brakeAndThrottle_ADC_conversion cfg s adc1 adc2).1 rest →
          (runTicks cfg s ((adc1, adc2) :: rest)).brakeAndThrottle_errorMsg
            = cfg.THROTTLE_ERROR)) := by
  have uB : u8 cfg.BRAKE_ERROR = cfg.BRAKE_ERROR := u8_of_lt hB
  have uT : u8 cfg.THROTTLE_ERROR = cfg.THROTTLE_ERROR := u8_of_lt hT
  have hB' : u8 cfg.BRAKE_ERROR ≠ cfg.BRAKE_AND_THROTTLE_NORMAL := by rw [uB]; exact hBn
  have hT' : u8 cfg.THROTTLE_ERROR ≠ cfg.BRAKE_AND_THROTTLE_NORMAL := by rw [uT]; exact hTn
  have hc := tick_errorMsg_cases cfg s adc1 adc2
  refine ⟨fun hb => ⟨?_, fun hin => ?_⟩, fun ht => ⟨?_, fun hin => ?_⟩⟩
  · refine runTicks_errorMsg_ne cfg rest _ hB' hT' ?_
    rw [hc]
    split_ifs
    · exact hT'
    · exact hB'
  · obtain ⟨h1, h2⟩ := hin
    rw [if_neg h1, if_pos hb] at hc
    have := brake_error_kept cfg rest _ hc h2
    rw [uB] at this
    exact this
  · refine runTicks_errorMsg_ne cfg rest _ hB' hT' ?_
    rw [hc, if_pos ht]
    exact hT'
  · rw [if_pos ht] at hc
    have := throttle_error_kept cfg rest _ hc hin
    rw [uT] at this
    exact this

/-- Witness for C8 (amended): on the example configuration with the brake
reading pinned at 0 and the throttle reading at 150, the brake average of the
fourth tick is out of range, and the error status is BRAKE_ERROR after that
tick and after two further ticks with the brake back in range. -/
theorem fault_kind_persistence_witness :
    brakeOutOfRange exampleConfig
        (brakeAvgOfTick exampleConfig
          (runTicks exampleConfig exampleInit [(0, 150), (0, 150), (0, 150)]) 0)
    ∧ (runTicks exampleConfig
          (runTicks exampleConfig exampleInit [(0, 150), (0, 150), (0, 150)])
          ((0, 150) :: [(3000, 150), (3000, 150)])).brakeAndThrottle_errorMsg = 14 :=
  ⟨by decide,
    ((fault_kind_persistence exampleConfig
        (runTicks exampleConfig exampleInit [(0, 150), (0, 150), (0, 150)]) 0 150
        [(3000, 150), (3000, 150)] (by decide) (by decide) (by decide) (by decide)).1
      (by decide)).2 (by simp only [throttleInRangeAlong]; decide)⟩

/-! ## The speed-mode cycle request -/

theorem toggleSpeedMode_engaged (cfg : Config) (s : State) (h : ¬ throttleIdle cfg s) :
    brakeAndThrottle_toggleSpeedMode cfg s = ({ s with speedModeChgFlag := 1 }, []) := by
  unfold throttleIdle at h
  unfold brakeAndThrottle_toggleSpeedMode
  simp only [if_neg h]

theorem toggleSpeedMode_events (cfg : Config) (s : State) (h : throttleIdle cfg s) :
    (brakeAndThrottle_toggleSpeedMode cfg s).2
      = [Event.ledControl_setSpeedMode (brakeAndThrottle_toggleSpeedMode cfg s).1.speedMode,
         Event.motorcontrol_setGatt (brakeAndThrottle_toggleSpeedMode cfg s).1.speedMode] := by
  unfold throttleIdle at h
  unfold brakeAndThrottle_toggleSpeedMode
  simp only [if_pos h]

theorem toggleSpeedMode_adc2Result (cfg : Config) (s : State) :
    (brakeAndThrottle_toggleSpeedMode cfg s).1.adc2Result = s.adc2Result := by
  unfold brakeAndThrottle_toggleSpeedMode
  simp only
  split_ifs <;> rfl

theorem toggleSpeedMode_from_amble (cfg : Config) (s : State) (h : throttleIdle cfg s)
    (hm : s.speedMode = cfg.BRAKE_AND_THROTTLE_SPEED_MODE_AMBLE) :
    (brakeAndThrottle_toggleSpeedMode cfg s).1.speedMode
        = u8 cfg.BRAKE_AND_THROTTLE_SPEED_MODE_LEISURE
    ∧ modeParams (brakeAndThrottle_toggleSpeedMode cfg s).1
        = profile cfg cfg.BRAKE_AND_THROTTLE_SPEED_MODE_REDUCTION_RATIO_LEISURE
            cfg.BRAKE_AND_THROTTLE_RAMPRATE_LEISURE cfg.BRAKE_AND_THROTTLE_MAXSPEED_LEISURE := by
  unfold throttleIdle at h
  unfold brakeAndThrottle_toggleSpeedMode
  simp only [if_pos h, if_pos hm]
  refine ⟨?_, ?_⟩ <;> first | rfl | trivial

theorem toggleSpeedMode_from_leisure (cfg : Config) (s : State) (h : throttleIdle cfg s)
    (hd : ModesDistinct cfg)
    (hm : s.speedMode = cfg.BRAKE_AND_THROTTLE_SPEED_MODE_LEISURE) :
    (brakeAndThrottle_toggleSpeedMode cfg s).1.speedMode
        = u8 cfg.BRAKE_AND_THROTTLE_SPEED_MODE_SPORTS
    ∧ modeParams (brakeAndThrottle_toggleSpeedMode cfg s).1
        = profile cfg cfg.BRAKE_AND_THROTTLE_SPEED_MODE_REDUCTION_RATIO_SPORTS
            cfg.BRAKE_AND_THROTTLE_RAMPRATE_SPORTS cfg.BRAKE_AND_THROTTLE_MAXSPEED_SPORTS := by
  unfold throttleIdle at h
  have h1 : ¬ s.speedMode = cfg.BRAKE_AND_THROTTLE_SPEED_MODE_AMBLE := by
    rw [hm]; exact fun e => hd.2.2.2.1 e.symm
  unfold brakeAndThrottle_toggleSpeedMode
  simp only [if_pos h, if_neg h1, if_pos hm]
  refine ⟨?_, ?_⟩ <;> first | rfl | trivial

theorem toggleSpeedMode_from_sports (cfg : Config) (s : State) (h : throttleIdle cfg s)
    (hd : ModesDistinct cfg)
    (hm : s.speedMode = cfg.BRAKE_AND_THROTTLE_SPEED_MODE_SPORTS) :
    (brakeAndThrottle_toggleSpeedMode cfg s).1.speedMode
        = u8 cfg.BRAKE_AND_THROTTLE_SPEED_MODE_AMBLE
    ∧ modeParams (brakeAndThrottle_toggleSpeedMode cfg s).1
        = profile cfg cfg.BRAKE_AND_THROTTLE_SPEED_MODE_REDUCTION_RATIO_AMBLE
            cfg.BRAKE_AND_THROTTLE_RAMPRATE_AMBLE cfg.BRAKE_AND_THROTTLE_MAXSPEED_AMBLE := by
  unfold throttleIdle at h
  have h1 : ¬ s.speedMode = cfg.BRAKE_AND_THROTTLE_SPEED_MODE_AMBLE := by
    rw [hm]; exact fun e => hd.2.2.2.2.1 e.symm
  have h2 : ¬ s.speedMode = cfg.BRAKE_AND_THROTTLE_SPEED_MODE_LEISURE := by
    rw [hm]; exact fun e => hd.2.2.2.2.2 e.symm
  unfold brakeAndThrottle_toggleSpeedMode
  simp only [if_pos h, if_neg h1, if_neg h2, if_pos hm]
  refine ⟨?_, ?_⟩ <;> first | rfl | trivial

/-- C11: for every state, `brakeAndThrottle_toggleSpeedMode` sets the pending
flag to 1; the display and the companion app are notified (of the resulting
speed mode) exactly when the throttle is idle; with the throttle not idle the
state is unchanged but for the flag (speed mode and the four parameters keep
their values); with the throttle idle the mode advances Amble to Leisure,
Leisure to Sports, Sports to Amble and the four parameters of the new mode are
loaded. -/
theorem cycle_request_effect (cfg : Config) (s : State) (hd : ModesDistinct cfg) :
    (brakeAndThrottle_toggleSpeedMode cfg s).1.speedModeChgFlag = 1
    ∧ (brakeAndThrottle_toggleSpeedMode cfg s).2
        = (if throttleIdle cfg s then
            [Event.ledControl_setSpeedMode (brakeAndThrottle_toggleSpeedMode cfg s).1.speedMode,
             Event.motorcontrol_setGatt (brakeAndThrottle_toggleSpeedMode cfg s).1.speedMode]
          else [])
    ∧ (¬ throttleIdle cfg s →
        (brakeAndThrottle_toggleSpeedMode cfg s).1 = { s with speedModeChgFlag := 1 })
    ∧ (throttleIdle cfg s →
        (s.speedMode = cfg.BRAKE_AND_THROTTLE_SPEED_MODE_AMBLE →
          (brakeAndThrottle_toggleSpeedMode cfg s).1.speedMode
              = cfg.BRAKE_AND_THROTTLE_SPEED_MODE_LEISURE
          ∧ modeParams (brakeAndThrottle_toggleSpeedMode cfg s).1
              = profile cfg cfg.BRAKE_AND_THROTTLE_SPEED_MODE_REDUCTION_RATIO_LEISURE
                  cfg.BRAKE_AND_THROTTLE_RAMPRATE_LEISURE cfg.BRAKE_AND_THROTTLE_MAXSPEED_LEISURE)
        ∧ (s.speedMode = cfg.BRAKE_AND_THROTTLE_SPEED_MODE_LEISURE →
          (brakeAndThrottle_toggleSpeedMode cfg s).1.speedMode
              = cfg.BRAKE_AND_THROTTLE_SPEED_MODE_SPORTS
          ∧ modeParams (brakeAndThrottle_toggleSpeedMode cfg s).1
              = profile cfg cfg.BRAKE_AND_THROTTLE_SPEED_MODE_REDUCTION_RATIO_SPORTS
                  cfg.BRAKE_AND_THROTTLE_RAMPRATE_SPORTS cfg.BRAKE_AND_THROTTLE_MAXSPEED_SPORTS)
        ∧ (s.speedMode = cfg.BRAKE_AND_THROTTLE_SPEED_MODE_SPORTS →
          (brakeAndThrottle_toggleSpeedMode cfg s).1.speedMode
              = cfg.BRAKE_AND_THROTTLE_SPEED_MODE_AMBLE
          ∧ modeParams (brakeAndThrottle_toggleSpeedMode cfg s).1
              = profile cfg cfg.BRAKE_AND_THROTTLE_SPEED_MODE_REDUCTION_RATIO_AMBLE
                  cfg.BRAKE_AND_THROTTLE_RAMPRATE_AMBLE cfg.BRAKE_AND_THROTTLE_MAXSPEED_AMBLE)) := by
  refine ⟨toggleSpeedMode_flag cfg s, ?_, fun h => ?_, fun h => ⟨fun hm => ?_, fun hm => ?_,
    fun hm => ?_⟩⟩
  · by_cases h : throttleIdle cfg s
    · rw [if_pos h]; exact toggleSpeedMode_events cfg s h
    · rw [if_neg h, toggleSpeedMode_engaged cfg s h]
  · rw [toggleSpeedMode_engaged cfg s h]
  · have := toggleSpeedMode_from_amble cfg s h hm
    rw [u8_of_lt hd.2.1] at this
    exact this
  · have := toggleSpeedMode_from_leisure cfg s h hd hm
    rw [u8_of_lt hd.2.2.1] at this
    exact this
  · have := toggleSpeedMode_from_sports cfg s h hd hm
    rw [u8_of_lt hd.1] at this
    exact this

/-- Witness for C11: the example configuration, a request made with the
throttle idle in mode Leisure: both notifications carry mode Sports. -/
theorem cycle_request_effect_witness :
    (brakeAndThrottle_toggleSpeedMode exampleConfig exampleInit).2
      = [Event.ledControl_setSpeedMode 2, Event.motorcontrol_setGatt 2] :=
  (cycle_request_effect exampleConfig exampleInit (by decide)).2.1

/-- C12 (counterexample): on the example configuration a request made with the
raw throttle reading at 1810, above `THROTTLE_ADC_CALIBRATE_L = 150`, issues no
call at all (neither display nor companion app is notified) and leaves the
speed mode at Leisure. -/
theorem engaged_request_not_notified :
    ¬ throttleIdle exampleConfig { exampleInit with adc2Result := 1810 }
    ∧ (brakeAndThrottle_toggleSpeedMode exampleConfig
        { exampleInit with adc2Result := 1810 }).2 = []
    ∧ (brakeAndThrottle_toggleSpeedMode exampleConfig
        { exampleInit with adc2Result := 1810 }).1.speedMode = 1 := by
  decide

/-- C12 (amended): when a mode-cycle is requested while the throttle is
engaged (last raw throttle reading above `THROTTLE_ADC_CALIBRATE_L`), the
request only sets the pending flag: it makes no call to the motor controller,
the display or the companion app, and the speed mode and every other state
field are unchanged. -/
theorem engaged_request_only_sets_flag (cfg : Config) (s : State)
    (h : cfg.THROTTLE_ADC_CALIBRATE_L < s.adc2Result) :
    (brakeAndThrottle_toggleSpeedMode cfg s).2 = []
    ∧ (brakeAndThrottle_toggleSpeedMode cfg s).1 = { s with speedModeChgFlag := 1 }
    ∧ (brakeAndThrottle_toggleSpeedMode cfg s).1.speedMode = s.speedMode
    ∧ modeParams (brakeAndThrottle_toggleSpeedMode cfg s).1 = modeParams s := by
  have hn : ¬ throttleIdle cfg s := by unfold throttleIdle; omega
  rw [toggleSpeedMode_engaged cfg s hn]
  exact ⟨rfl, rfl, rfl, rfl⟩

/-- Witness for C12 (amended): the example configuration with the last throttle
reading at 1810. -/
theorem engaged_request_only_sets_flag_witness :
    (brakeAndThrottle_toggleSpeedMode exampleConfig
        { exampleInit with adc2Result := 1810 }).2 = [] :=
  (engaged_request_only_sets_flag exampleConfig { exampleInit with adc2Result := 1810 }
    (by decide)).1

theorem getSpeedModeParams_amble (cfg : Config) (s : State)
    (hm : s.speedMode = cfg.BRAKE_AND_THROTTLE_SPEED_MODE_AMBLE) :
    modeParams (brakeAndThrottle_getSpeedModeParams cfg s)
      = profile cfg cfg.BRAKE_AND_THROTTLE_SPEED_MODE_REDUCTION_RATIO_AMBLE
          cfg.BRAKE_AND_THROTTLE_RAMPRATE_AMBLE cfg.BRAKE_AND_THROTTLE_MAXSPEED_AMBLE := by
  unfold brakeAndThrottle_getSpeedModeParams
  rw [if_pos hm]
  rfl

theorem getSpeedModeParams_leisure (cfg : Config) (s : State) (hd : ModesDistinct cfg)
    (hm : s.speedMode = cfg.BRAKE_AND_THROTTLE_SPEED_MODE_LEISURE) :
    (brakeAndThrottle_getSpeedModeParams cfg s).speedMode
        = cfg.BRAKE_AND_THROTTLE_SPEED_MODE_LEISURE
    ∧ modeParams (brakeAndThrottle_getSpeedModeParams cfg s)
      = profile cfg cfg.BRAKE_AND_THROTTLE_SPEED_MODE_REDUCTION_RATIO_LEISURE
          cfg.BRAKE_AND_THROTTLE_RAMPRATE_LEISURE cfg.BRAKE_AND_THROTTLE_MAXSPEED_LEISURE := by
  have h1 : ¬ s.speedMode = cfg.BRAKE_AND_THROTTLE_SPEED_MODE_AMBLE := by
    rw [hm]; exact fun e => hd.2.2.2.1 e.symm
  unfold brakeAndThrottle_getSpeedModeParams
  rw [if_neg h1, if_pos hm]
  exact ⟨u8_of_lt hd.2.1, rfl⟩

theorem getSpeedModeParams_sports (cfg : Config) (s : State) (hd : ModesDistinct cfg)
    (hm : s.speedMode = cfg.BRAKE_AND_THROTTLE_SPEED_MODE_SPORTS) :
    modeParams (brakeAndThrottle_getSpeedModeParams cfg s)
      = profile cfg cfg.BRAKE_AND_THROTTLE_SPEED_MODE_REDUCTION_RATIO_SPORTS
          cfg.BRAKE_AND_THROTTLE_RAMPRATE_SPORTS cfg.BRAKE_AND_THROTTLE_MAXSPEED_SPORTS := by
  have h1 : ¬ s.speedMode = cfg.BRAKE_AND_THROTTLE_SPEED_MODE_AMBLE := by
    rw [hm]; exact fun e => hd.2.2.2.2.1 e.symm
  have h2 : ¬ s.speedMode = cfg.BRAKE_AND_THROTTLE_SPEED_MODE_LEISURE := by
    rw [hm]; exact fun e => hd.2.2.2.2.2 e.symm
  unfold brakeAndThrottle_getSpeedModeParams
  rw [if_neg h1, if_neg h2, if_pos hm]
  rfl

theorem toggleSpeedMode_idle (cfg : Config) (s : State) (h : throttleIdle cfg s) :
    throttleIdle cfg (brakeAndThrottle_toggleSpeedMode cfg s).1 := by
  unfold throttleIdle at *
  rw [toggleSpeedMode_adc2Result]
  exact h

theorem requests_three (cfg : Config) (s : State) :
    requests cfg 3 s
      = (brakeAndThrottle_toggleSpeedMode cfg
          (brakeAndThrottle_toggleSpeedMode cfg
            (brakeAndThrottle_toggleSpeedMode cfg s).1).1).1 := rfl

/-- C13: with the throttle idle, one request maps the active mode Amble to
Leisure, Leisure to Sports and Sports to Amble; and from every state whose
mode is one of the three and whose four parameters are those
`brakeAndThrottle_getSpeedModeParams` assigns for that mode, three consecutive
requests bring the speed mode and the four parameters back to their starting
values. -/
theorem three_requests_return (cfg : Config) (s : State) (hd : ModesDistinct cfg)
    (hidle : throttleIdle cfg s)
    (hmode : s.speedMode = cfg.BRAKE_AND_THROTTLE_SPEED_MODE_AMBLE
      ∨ s.speedMode = cfg.BRAKE_AND_THROTTLE_SPEED_MODE_LEISURE
      ∨ s.speedMode = cfg.BRAKE_AND_THROTTLE_SPEED_MODE_SPORTS)
    (hcons : modeParams (brakeAndThrottle_getSpeedModeParams cfg s) = modeParams s) :
    (s.speedMode = cfg.BRAKE_AND_THROTTLE_SPEED_MODE_AMBLE →
      (requests cfg 1 s).speedMode = cfg.BRAKE_AND_THROTTLE_SPEED_MODE_LEISURE)
    ∧ (s.speedMode = cfg.BRAKE_AND_THROTTLE_SPEED_MODE_LEISURE →
      (requests cfg 1 s).speedMode = cfg.BRAKE_AND_THROTTLE_SPEED_MODE_SPORTS)
    ∧ (s.speedMode = cfg.BRAKE_AND_THROTTLE_SPEED_MODE_SPORTS →
      (requests cfg 1 s).speedMode = cfg.BRAKE_AND_THROTTLE_SPEED_MODE_AMBLE)
    ∧ (requests cfg 3 s).speedMode = s.speedMode
    ∧ modeParams (requests cfg 3 s) = modeParams s := by
  have uA := u8_of_lt hd.1
  have uL := u8_of_lt hd.2.1
  have uS := u8_of_lt hd.2.2.1
  have fromA : ∀ t : State, throttleIdle cfg t →
      t.speedMode = cfg.BRAKE_AND_THROTTLE_SPEED_MODE_AMBLE →
      (brakeAndThrottle_toggleSpeedMode cfg t).1.speedMode
        = cfg.BRAKE_AND_THROTTLE_SPEED_MODE_LEISURE := by
    intro t ht hm
    rw [(toggleSpeedMode_from_amble cfg t ht hm).1, uL]
  have fromL : ∀ t : State, throttleIdle cfg t →
      t.speedMode = cfg.BRAKE_AND_THROTTLE_SPEED_MODE_LEISURE →
      (brakeAndThrottle_toggleSpeedMode cfg t).1.speedMode
        = cfg.BRAKE_AND_THROTTLE_SPEED_MODE_SPORTS := by
    intro t ht hm
    rw [(toggleSpeedMode_from_leisure cfg t ht hd hm).1, uS]
  have fromS : ∀ t : State, throttleIdle cfg t →
      t.speedMode = cfg.BRAKE_AND_THROTTLE_SPEED_MODE_SPORTS →
      (brakeAndThrottle_toggleSpeedMode cfg t).1.speedMode
        = cfg.BRAKE_AND_THROTTLE_SPEED_MODE_AMBLE := by
    intro t ht hm
    rw [(toggleSpeedMode_from_sports cfg t ht hd hm).1, uA]
  have i1 := toggleSpeedMode_idle cfg s hidle
  have i2 := toggleSpeedMode_idle cfg _ i1
  refine ⟨fromA s hidle, fromL s hidle, fromS s hidle, ?_⟩
  rw [requests_three]
  rcases hmode with hm | hm | hm
  · have m1 := fromA s hidle hm
    have m2 := fromL _ i1 m1
    refine ⟨by rw [fromS _ i2 m2, hm], ?_⟩
    rw [(toggleSpeedMode_from_sports cfg _ i2 hd m2).2, ← hcons,
      getSpeedModeParams_amble cfg s hm]
  · have m1 := fromL s hidle hm
    have m2 := fromS _ i1 m1
    refine ⟨by rw [fromA _ i2 m2, hm], ?_⟩
    rw [(toggleSpeedMode_from_amble cfg _ i2 m2).2, ← hcons,
      (getSpeedModeParams_leisure cfg s hd hm).2]
  · have m1 := fromS s hidle hm
    have m2 := fromA _ i1 m1
    refine ⟨by rw [fromL _ i2 m2, hm], ?_⟩
    rw [(toggleSpeedMode_from_leisure cfg _ i2 hd m2).2, ← hcons,
      getSpeedModeParams_sports cfg s hd hm]

/-- Witness for C13: the initialised example state (mode Leisure, throttle
idle): three requests return to mode Leisure with Leisure's parameters. -/
theorem three_requests_return_witness :
    (requests exampleConfig 3 exampleInit).speedMode = 1
    ∧ modeParams (requests exampleConfig 3 exampleInit) = (70, 14000, 2000, 400) :=
  (three_requests_return exampleConfig exampleInit (by decide) (by decide) (by decide)
    (by decide)).2.2.2

/-- C14 (counterexample): in the scenario with the example constants, from the
state produced by init, after the first tick with brake reading 0 and throttle
reading 150 the error status is NORMAL (0), not BRAKE_ERROR (14), and the
torque command of that tick is 140. -/
theorem brake_pinned_first_tick_no_fault :
    ((tickStates exampleConfig exampleInit brakePinnedScenario).map observeFault).head?
      = some (exampleConfig.BRAKE_AND_THROTTLE_NORMAL, 140)
    ∧ exampleConfig.BRAKE_AND_THROTTLE_NORMAL ≠ exampleConfig.BRAKE_ERROR := by
  decide

/-- C14 (amended): in the scenario with the example constants, from the state
produced by init, with the brake reading 0 and the throttle reading 150 on each
of 10 ticks, the error status is still NORMAL after tick 1, and after tick 4
and every later tick it is BRAKE_ERROR with torque command 0 on each of those
ticks. -/
theorem brake_pinned_scenario :
    ((tickStates exampleConfig exampleInit brakePinnedScenario).map
        (fun s => s.brakeAndThrottle_errorMsg)).head?
      = some exampleConfig.BRAKE_AND_THROTTLE_NORMAL
    ∧ ((tickStates exampleConfig exampleInit brakePinnedScenario).map observeFault).drop 3
      = List.replicate 7 (exampleConfig.BRAKE_ERROR, 0) := by
  decide

theorem torqueCommand_released (cfg : Config) (ratio p : Nat)
    (hmax : cfg.BRAKE_AND_THROTTLE_TORQUEIQ_MAX < 65536) (hr : ratio ≤ 100) (hp : p ≤ 100) :
    torqueCommand cfg 0 0 ratio p = cfg.BRAKE_AND_THROTTLE_TORQUEIQ_MAX * ratio * p / 10000 := by
  unfold torqueCommand
  simp only [if_true, Nat.zero_ne_one, if_false]
  apply u16_of_lt
  apply Nat.div_lt_of_lt_mul
  have h1 : cfg.BRAKE_AND_THROTTLE_TORQUEIQ_MAX * ratio ≤ 65535 * 100 :=
    Nat.mul_le_mul (by omega) hr
  have h2 := Nat.mul_le_mul h1 hp
  omega

/-- C15: for a fixed speed mode (reduction ratio at most 100, torque ceiling
below 2^16), with no fault and the brake status Released, the torque command is
monotone in the throttle percent: for `p1 ≤ p2 ≤ 100` the torque computed for
`p1` is at most the torque computed for `p2`; so for two ticks that end
fault-free and Released with the same ratio, the tick with the smaller throttle
percent commands the smaller or equal torque. -/
theorem torque_monotone_in_throttle (cfg : Config) (ratio p1 p2 : Nat)
    (hmax : cfg.BRAKE_AND_THROTTLE_TORQUEIQ_MAX < 65536) (hr : ratio ≤ 100)
    (h12 : p1 ≤ p2) (h2 : p2 ≤ 100) :
    torqueCommand cfg 0 0 ratio p1 ≤ torqueCommand cfg 0 0 ratio p2
    ∧ ∀ (s1 s2 : State) (a1 b1 a2 b2 : Nat),
        s1.reductionRatio = ratio → s2.reductionRatio = ratio →
        (brakeAndThrottle_ADC_conversion cfg s1 a1 b1).1.brakeAndThrottle_errorMsg = 0 →
        (brakeAndThrottle_ADC_conversion cfg s2 a2 b2).1.brakeAndThrottle_errorMsg = 0 →
        (brakeAndThrottle_ADC_conversion cfg s1 a1 b1).1.brakeStatus = 0 →
        (brakeAndThrottle_ADC_conversion cfg s2 a2 b2).1.brakeStatus = 0 →
        (brakeAndThrottle_ADC_conversion cfg s1 a1 b1).1.throttlePercent = p1 →
        (brakeAndThrottle_ADC_conversion cfg s2 a2 b2).1.throttlePercent = p2 →
        (brakeAndThrottle_ADC_conversion cfg s1 a1 b1).1.IQValue
          ≤ (brakeAndThrottle_ADC_conversion cfg s2 a2 b2).1.IQValue := by
  have key : torqueCommand cfg 0 0 ratio p1 ≤ torqueCommand cfg 0 0 ratio p2 := by
    rw [torqueCommand_released cfg ratio p1 hmax hr (le_trans h12 h2),
      torqueCommand_released cfg ratio p2 hmax hr h2]
    exact Nat.div_le_div_right (Nat.mul_le_mul_left _ h12)
  refine ⟨key, ?_⟩
  intro s1 s2 a1 b1 a2 b2 r1 r2 e1 e2 q1 q2 t1 t2
  rw [tick_IQValue, tick_IQValue, e1, e2, q1, q2, t1, t2, r1, r2]
  exact key

/-- Witness for C15: the example configuration in mode Leisure (ratio 70):
throttle percents 13 and 60 give torques 1820 and 8400. -/
theorem torque_monotone_in_throttle_witness :
    torqueCommand exampleConfig 0 0 70 13 ≤ torqueCommand exampleConfig 0 0 70 60 :=
  (torque_monotone_in_throttle exampleConfig 70 13 60 (by decide) (by decide) (by decide)
    (by decide)).1

/-! ## Initialisation -/

theorem initLoop_frame (cfg : Config) (n ii : Nat) (s : State) :
    (initLoop cfg n ii s).speedMode = s.speedMode
    ∧ modeParams (initLoop cfg n ii s) = modeParams s := by
  induction n generalizing ii s with
  | zero => exact ⟨rfl, rfl⟩
  | succ n ih =>
    simp only [initLoop]
    exact ih _ _

theorem initLoop_brake (cfg : Config) (n ii : Nat) (s : State) (j : Nat) :
    (initLoop cfg n ii s).brakeADCValues[j]?
      = if ii ≤ j ∧ j < ii + n ∧ j < s.brakeADCValues.length
          then some (u16 cfg.BRAKE_ADC_CALIBRATE_L) else s.brakeADCValues[j]? := by
  induction n generalizing ii s with
  | zero =>
    have : ¬ (ii ≤ j ∧ j < ii + 0 ∧ j < s.brakeADCValues.length) := by omega
    rw [if_neg this]; rfl
  | succ n ih =>
    simp only [initLoop]
    rw [ih]
    simp only [List.length_set, List.getElem?_set]
    by_cases hj : ii = j
    · subst hj
      by_cases hl : ii < s.brakeADCValues.length
      · have c1 : ¬ (ii + 1 ≤ ii ∧ ii < ii + 1 + n ∧ ii < s.brakeADCValues.length) := by omega
        have c2 : ii ≤ ii ∧ ii < ii + (n + 1) ∧ ii < s.brakeADCValues.length := by omega
        rw [if_neg c1, if_pos c2]; simp [hl]
      · have c1 : ¬ (ii + 1 ≤ ii ∧ ii < ii + 1 + n ∧ ii < s.brakeADCValues.length) := by omega
        have c2 : ¬ (ii ≤ ii ∧ ii < ii + (n + 1) ∧ ii < s.brakeADCValues.length) := by omega
        rw [if_neg c1, if_neg c2, List.getElem?_eq_none (by omega)]; simp [hl]
    · by_cases c : ii + 1 ≤ j ∧ j < ii + 1 + n ∧ j < s.brakeADCValues.length
      · have c2 : ii ≤ j ∧ j < ii + (n + 1) ∧ j < s.brakeADCValues.length := by omega
        rw [if_pos c, if_pos c2]
      · have c2 : ¬ (ii ≤ j ∧ j < ii + (n + 1) ∧ j < s.brakeADCValues.length) := by omega
        rw [if_neg c, if_neg c2, if_neg hj]

theorem initLoop_throttle (cfg : Config) (n ii : Nat) (s : State) (j : Nat) :
    (initLoop cfg n ii s).throttleADCValues[j]?
      = if ii ≤ j ∧ j < ii + n ∧ j < s.throttleADCValues.length
          then some (u16 cfg.THROTTLE_ADC_CALIBRATE_L) else s.throttleADCValues[j]? := by
  induction n generalizing ii s with
  | zero =>
    have : ¬ (ii ≤ j ∧ j < ii + 0 ∧ j < s.throttleADCValues.length) := by omega
    rw [if_neg this]; rfl
  | succ n ih =>
    simp only [initLoop]
    rw [ih]
    simp only [List.length_set, List.getElem?_set]
    by_cases hj : ii = j
    · subst hj
      by_cases hl : ii < s.throttleADCValues.length
      · have c1 : ¬ (ii + 1 ≤ ii ∧ ii < ii + 1 + n ∧ ii < s.throttleADCValues.length) := by
          omega
        have c2 : ii ≤ ii ∧ ii < ii + (n + 1) ∧ ii < s.throttleADCValues.length := by omega
        rw [if_neg c1, if_pos c2]; simp [hl]
      · have c1 : ¬ (ii + 1 ≤ ii ∧ ii < ii + 1 + n ∧ ii < s.throttleADCValues.length) := by
          omega
        have c2 : ¬ (ii ≤ ii ∧ ii < ii + (n + 1) ∧ ii < s.throttleADCValues.length) := by
          omega
        rw [if_neg c1, if_neg c2, List.getElem?_eq_none (by omega)]; simp [hl]
    · by_cases c : ii + 1 ≤ j ∧ j < ii + 1 + n ∧ j < s.throttleADCValues.length
      · have c2 : ii ≤ j ∧ j < ii + (n + 1) ∧ j < s.throttleADCValues.length := by omega
        rw [if_pos c, if_pos c2]
      · have c2 : ¬ (ii ≤ j ∧ j < ii + (n + 1) ∧ j < s.throttleADCValues.length) := by omega
        rw [if_neg c, if_neg c2, if_neg hj]

theorem getSpeedModeParams_windows (cfg : Config) (s : State) :
    (brakeAndThrottle_getSpeedModeParams cfg s).brakeADCValues = s.brakeADCValues
    ∧ (brakeAndThrottle_getSpeedModeParams cfg s).throttleADCValues = s.throttleADCValues := by
  unfold brakeAndThrottle_getSpeedModeParams
  split_ifs <;> exact ⟨rfl, rfl⟩

/-- C16: after `brakeAndThrottle_init`, from any prior state (whose two arrays
have `BRAKE_AND_THROTTLE_SAMPLES` slots, at most 255, the loop counter being a
`uint8_t`), the active speed mode is Leisure, the four mode parameters are
Leisure's, every slot of the brake window holds `BRAKE_ADC_CALIBRATE_L` and
every slot of the throttle window holds `THROTTLE_ADC_CALIBRATE_L`. -/
theorem init_state (cfg : Config) (s : State) (hd : ModesDistinct cfg)
    (_hN : cfg.BRAKE_AND_THROTTLE_SAMPLES ≤ 255)
    (hb : s.brakeADCValues.length = cfg.BRAKE_AND_THROTTLE_SAMPLES)
    (ht : s.throttleADCValues.length = cfg.BRAKE_AND_THROTTLE_SAMPLES)
    (hBL : cfg.BRAKE_ADC_CALIBRATE_L < 65536) (hTL : cfg.THROTTLE_ADC_CALIBRATE_L < 65536) :
    (brakeAndThrottle_init cfg s).speedMode = cfg.BRAKE_AND_THROTTLE_SPEED_MODE_LEISURE
    ∧ modeParams (brakeAndThrottle_init cfg s)
        = profile cfg cfg.BRAKE_AND_THROTTLE_SPEED_MODE_REDUCTION_RATIO_LEISURE
            cfg.BRAKE_AND_THROTTLE_RAMPRATE_LEISURE cfg.BRAKE_AND_THROTTLE_MAXSPEED_LEISURE
    ∧ (brakeAndThrottle_init cfg s).brakeADCValues
        = List.replicate cfg.BRAKE_AND_THROTTLE_SAMPLES cfg.BRAKE_ADC_CALIBRATE_L
    ∧ (brakeAndThrottle_init cfg s).throttleADCValues
        = List.replicate cfg.BRAKE_AND_THROTTLE_SAMPLES cfg.THROTTLE_ADC_CALIBRATE_L := by
  have hm : ({ s with speedMode := u8 cfg.BRAKE_AND_THROTTLE_SPEED_MODE_LEISURE } : State).speedMode
      = cfg.BRAKE_AND_THROTTLE_SPEED_MODE_LEISURE := u8_of_lt hd.2.1
  have g := getSpeedModeParams_leisure cfg _ hd hm
  have w := getSpeedModeParams_windows cfg
    { s with speedMode := u8 cfg.BRAKE_AND_THROTTLE_SPEED_MODE_LEISURE }
  unfold brakeAndThrottle_init
  simp only
  have f := initLoop_frame cfg cfg.BRAKE_AND_THROTTLE_SAMPLES 0
    (brakeAndThrottle_getSpeedModeParams cfg
      { s with speedMode := u8 cfg.BRAKE_AND_THROTTLE_SPEED_MODE_LEISURE })
  refine ⟨by rw [f.1, g.1], by rw [f.2, g.2], ?_, ?_⟩
  · apply List.ext_getElem?
    intro j
    rw [initLoop_brake, w.1, List.getElem?_replicate, u16_of_lt hBL]
    by_cases hj : j < cfg.BRAKE_AND_THROTTLE_SAMPLES
    · have c : 0 ≤ j ∧ j < 0 + cfg.BRAKE_AND_THROTTLE_SAMPLES ∧ j < s.brakeADCValues.length := by
        omega
      rw [if_pos c, if_pos hj]
    · have c : ¬ (0 ≤ j ∧ j < 0 + cfg.BRAKE_AND_THROTTLE_SAMPLES
          ∧ j < s.brakeADCValues.length) := by omega
      rw [if_neg c, if_neg hj]
      exact List.getElem?_eq_none (by show s.brakeADCValues.length ≤ j; omega)
  · apply List.ext_getElem?
    intro j
    rw [initLoop_throttle, w.2, List.getElem?_replicate, u16_of_lt hTL]
    by_cases hj : j < cfg.BRAKE_AND_THROTTLE_SAMPLES
    · have c : 0 ≤ j ∧ j < 0 + cfg.BRAKE_AND_THROTTLE_SAMPLES
          ∧ j < s.throttleADCValues.length := by omega
      rw [if_pos c, if_pos hj]
    · have c : ¬ (0 ≤ j ∧ j < 0 + cfg.BRAKE_AND_THROTTLE_SAMPLES
          ∧ j < s.throttleADCValues.length) := by omega
      rw [if_neg c, if_neg hj]
      exact List.getElem?_eq_none (by show s.throttleADCValues.length ≤ j; omega)

/-- Witness for C16: `brakeAndThrottle_init` on the example configuration from
a state in mode Sports with used windows. -/
theorem init_state_witness :
    (brakeAndThrottle_init exampleConfig
        { exampleInit with
          speedMode := 2, brakeADCValues := [1, 2, 3, 4, 5],
          throttleADCValues := [9, 8, 7, 6, 5] }).brakeADCValues
      = List.replicate 5 150 :=
  (init_state exampleConfig
    { exampleInit with
      speedMode := 2, brakeADCValues := [1, 2, 3, 4, 5], throttleADCValues := [9, 8, 7, 6, 5] }
    (by decide) (by decide) (by decide) (by decide) (by decide) (by decide)).2.2.1

/-- C17: for every state and every argument, `brakeAndThrottle_setSpeedMode`
leaves the whole state, and so the active speed mode, unchanged:
`brakeAndThrottle_getSpeedMode` returns the same value after the call as
before it, also when the argument is a different mode. -/
theorem setSpeedMode_no_effect (s : State) (v : Nat) :
    brakeAndThrottle_setSpeedMode s v = s
    ∧ brakeAndThrottle_getSpeedMode (brakeAndThrottle_setSpeedMode s v)
        = brakeAndThrottle_getSpeedMode s :=
  ⟨rfl, rfl⟩

/-- C18: fault detection is exact.  With error codes different from NORMAL,
from a state whose error status is NORMAL the status after a tick is not NORMAL
if and only if the tick's brake average is outside
`[BRAKE_ADC_THRESHOLD_L, BRAKE_ADC_THRESHOLD_H]` or its throttle average is
outside `[THROTTLE_ADC_THRESHOLD_L, THROTTLE_ADC_THRESHOLD_H]`; with both
averages in range it stays NORMAL. -/
theorem fault_detection_exact (cfg : Config) (s : State) (adc1 adc2 : Nat)
    (hB : u8 cfg.BRAKE_ERROR ≠ cfg.BRAKE_AND_THROTTLE_NORMAL)
    (hT : u8 cfg.THROTTLE_ERROR ≠ cfg.BRAKE_AND_THROTTLE_NORMAL)
    (h : s.brakeAndThrottle_errorMsg = cfg.BRAKE_AND_THROTTLE_NORMAL) :
    ((brakeAndThrottle_ADC_conversion cfg s adc1 adc2).1.brakeAndThrottle_errorMsg
        ≠ cfg.BRAKE_AND_THROTTLE_NORMAL
      ↔ (brakeAvgOfTick cfg s adc1 < cfg.BRAKE_ADC_THRESHOLD_L
          ∨ brakeAvgOfTick cfg s adc1 > cfg.BRAKE_ADC_THRESHOLD_H
          ∨ throttleAvgOfTick cfg s adc2 < cfg.THROTTLE_ADC_THRESHOLD_L
          ∨ throttleAvgOfTick cfg s adc2 > cfg.THROTTLE_ADC_THRESHOLD_H))
    ∧ ((cfg.BRAKE_ADC_THRESHOLD_L ≤ brakeAvgOfTick cfg s adc1
          ∧ brakeAvgOfTick cfg s adc1 ≤ cfg.BRAKE_ADC_THRESHOLD_H
          ∧ cfg.THROTTLE_ADC_THRESHOLD_L ≤ throttleAvgOfTick cfg s adc2
          ∧ throttleAvgOfTick cfg s adc2 ≤ cfg.THROTTLE_ADC_THRESHOLD_H) →
        (brakeAndThrottle_ADC_conversion cfg s adc1 adc2).1.brakeAndThrottle_errorMsg
          = cfg.BRAKE_AND_THROTTLE_NORMAL) := by
  have hc := tick_errorMsg_cases cfg s adc1 adc2
  unfold throttleOutOfRange brakeOutOfRange at hc
  constructor
  · constructor
    · intro hne
      by_contra hcon
      have t : ¬ (throttleAvgOfTick cfg s adc2 < cfg.THROTTLE_ADC_THRESHOLD_L
          ∨ throttleAvgOfTick cfg s adc2 > cfg.THROTTLE_ADC_THRESHOLD_H) := by
        intro x; exact hcon (by tauto)
      have b : ¬ (cfg.BRAKE_ADC_THRESHOLD_L > brakeAvgOfTick cfg s adc1
          ∨ brakeAvgOfTick cfg s adc1 > cfg.BRAKE_ADC_THRESHOLD_H) := by
        intro x; exact hcon (by tauto)
      rw [if_neg t, if_neg b] at hc
      exact hne (hc.trans h)
    · intro hout
      rw [hc]
      split_ifs with t b
      · exact hT
      · exact hB
      · exact absurd hout (by tauto)
  · intro hin
    have t : ¬ (throttleAvgOfTick cfg s adc2 < cfg.THROTTLE_ADC_THRESHOLD_L
        ∨ throttleAvgOfTick cfg s adc2 > cfg.THROTTLE_ADC_THRESHOLD_H) := by omega
    have b : ¬ (cfg.BRAKE_ADC_THRESHOLD_L > brakeAvgOfTick cfg s adc1
        ∨ brakeAvgOfTick cfg s adc1 > cfg.BRAKE_ADC_THRESHOLD_H) := by omega
    rw [if_neg t, if_neg b] at hc
    exact hc.trans h

/-- Witness for C18: the initialised example state (status NORMAL) and a tick
with both readings at 150: both averages are 201, in range, and the status
stays NORMAL. -/
theorem fault_detection_exact_witness :
    (brakeAndThrottle_ADC_conversion exampleConfig exampleInit 150 150).1.brakeAndThrottle_errorMsg
      = 0 :=
  (fault_detection_exact exampleConfig exampleInit 150 150 (by decide) (by decide)
    (by decide)).2 (by decide)

/-! ## The brake state machine -/

theorem brakeStateMachine_tap (cfg : Config) (throttlePercent brakePercent : Nat) :
    (brakeStateMachine cfg 1 throttlePercent 0 brakePercent).1
      = if brakePercent ≤ cfg.BRAKEPERCENTTHRESHOLD then 0 else 1 := by
  unfold brakeStateMachine
  have h : (1 : Nat) = 1 ∧ throttlePercent * cfg.THROTTLEPERCENTREDUCTION_DEN
      ≥ 0 * cfg.THROTTLEPERCENTREDUCTION_NUM := ⟨rfl, by omega⟩
  rw [if_pos h]
  by_cases hb : brakePercent ≤ cfg.BRAKEPERCENTTHRESHOLD
  · rw [if_pos ⟨rfl, hb⟩, if_pos hb]
  · rw [if_neg (fun c => hb c.2), if_neg hb]

theorem brakeStateMachine_pulled (cfg : Config)
    (brakeStatus throttlePercent throttlePercent0 brakePercent : Nat)
    (hs : brakeStatus = 0 ∨ brakeStatus = 1)
    (hb : brakePercent > cfg.BRAKEPERCENTTHRESHOLD) :
    (brakeStateMachine cfg brakeStatus throttlePercent throttlePercent0 brakePercent).1 = 1 := by
  unfold brakeStateMachine
  have n1 : ¬ (throttlePercent0 = 0 ∧ brakePercent ≤ cfg.BRAKEPERCENTTHRESHOLD) := by omega
  have n3 : ¬ (throttlePercent * cfg.THROTTLEPERCENTREDUCTION_DEN
        < throttlePercent0 * cfg.THROTTLEPERCENTREDUCTION_NUM
      ∧ brakePercent ≤ cfg.BRAKEPERCENTTHRESHOLD) := by omega
  rcases hs with h0 | h1
  · have c1 : ¬ (brakeStatus = 1 ∧ throttlePercent * cfg.THROTTLEPERCENTREDUCTION_DEN
        ≥ throttlePercent0 * cfg.THROTTLEPERCENTREDUCTION_NUM) := by omega
    rw [if_neg c1, if_pos ⟨h0, hb⟩]
  · by_cases c1 : brakeStatus = 1 ∧ throttlePercent * cfg.THROTTLEPERCENTREDUCTION_DEN
        ≥ throttlePercent0 * cfg.THROTTLEPERCENTREDUCTION_NUM
    · rw [if_pos c1, if_neg n1]
    · have c2 : ¬ (brakeStatus = 0 ∧ brakePercent > cfg.BRAKEPERCENTTHRESHOLD) := by omega
      rw [if_neg c1, if_neg c2, if_neg n3]
      exact h1

/-- C19: brake tap with no throttle history.  From every state with brake
status Braking (1) and latch `throttlePercent0 = 0`, whatever the throttle
percent, the state machine is Released (0) after a tick if and only if that
tick's brake percent is at most `BRAKEPERCENTTHRESHOLD`; otherwise it remains
Braking (1). -/
theorem brake_tap_release (cfg : Config) (s : State) (adc1 adc2 : Nat)
    (hbraking : s.brakeStatus = 1) (hlatch : s.throttlePercent0 = 0) :
    ((brakeAndThrottle_ADC_conversion cfg s adc1 adc2).1.brakeStatus = 0
      ↔ (brakeAndThrottle_ADC_conversion cfg s adc1 adc2).1.brakePercent
          ≤ cfg.BRAKEPERCENTTHRESHOLD)
    ∧ (¬ (brakeAndThrottle_ADC_conversion cfg s adc1 adc2).1.brakePercent
          ≤ cfg.BRAKEPERCENTTHRESHOLD →
        (brakeAndThrottle_ADC_conversion cfg s adc1 adc2).1.brakeStatus = 1) := by
  have h := tick_brakeStatus cfg s adc1 adc2
  rw [hbraking, hlatch, brakeStateMachine_tap] at h
  by_cases hb : (brakeAndThrottle_ADC_conversion cfg s adc1 adc2).1.brakePercent
      ≤ cfg.BRAKEPERCENTTHRESHOLD
  · rw [if_pos hb] at h
    exact ⟨⟨fun _ => hb, fun _ => h⟩, fun c => absurd hb c⟩
  · rw [if_neg hb] at h
    exact ⟨⟨fun c => by rw [h] at c; exact absurd c Nat.one_ne_zero, fun c => absurd c hb⟩,
      fun _ => h⟩

/-- Witness for C19: the example configuration, Braking with latch 0 and a
stored throttle percent of 80; a tick with the brake reading at 150 (brake
percent 1) releases. -/
theorem brake_tap_release_witness :
    (brakeAndThrottle_ADC_conversion exampleConfig
        { exampleInit with brakeStatus := 1, throttlePercent0 := 0, throttlePercent := 80 }
        150 2500).1.brakeStatus = 0 :=
  (brake_tap_release exampleConfig
    { exampleInit with brakeStatus := 1, throttlePercent0 := 0, throttlePercent := 80 }
    150 2500 rfl rfl).1.2 (by decide)

/-- C20: brake interlock.  From every state with brake status 0 or 1 (any
latch, any throttle percent, any error status) and for all readings, if the
brake percent computed on a tick exceeds `BRAKEPERCENTTHRESHOLD`, the brake
status after that tick is Braking (1), the torque command of that tick is 0 and
0 is what the output callback receives. -/
theorem brake_interlock (cfg : Config) (s : State) (adc1 adc2 : Nat)
    (hs : s.brakeStatus = 0 ∨ s.brakeStatus = 1)
    (hb : (brakeAndThrottle_ADC_conversion cfg s adc1 adc2).1.brakePercent
      > cfg.BRAKEPERCENTTHRESHOLD) :
    (brakeAndThrottle_ADC_conversion cfg s adc1 adc2).1.brakeStatus = 1
    ∧ (brakeAndThrottle_ADC_conversion cfg s adc1 adc2).1.IQValue = 0
    ∧ (brakeAndThrottle_ADC_conversion cfg s adc1 adc2).2.head?
        = some (Event.brakeAndThrottle_CB s.allowableSpeed 0
            (brakeAndThrottle_ADC_conversion cfg s adc1 adc2).1.brakeAndThrottle_errorMsg) := by
  have h1 : (brakeAndThrottle_ADC_conversion cfg s adc1 adc2).1.brakeStatus = 1 := by
    rw [tick_brakeStatus]
    exact brakeStateMachine_pulled cfg _ _ _ _ hs hb
  have h2 : (brakeAndThrottle_ADC_conversion cfg s adc1 adc2).1.IQValue = 0 := by
    rw [tick_IQValue, h1]
    unfold torqueCommand
    simp only [if_true, ite_self]
  refine ⟨h1, h2, ?_⟩
  rw [tick_events_head, h2]

/-- Witness for C20: the initialised example state (Released) and a brake
reading of 3000 with the throttle reading at 2500: brake percent 21 exceeds 15,
the state machine is Braking and the torque is 0. -/
theorem brake_interlock_witness :
    (brakeAndThrottle_ADC_conversion exampleConfig exampleInit 3000 2500).1.brakeStatus = 1
    ∧ (brakeAndThrottle_ADC_conversion exampleConfig exampleInit 3000 2500).1.IQValue = 0 :=
  ⟨(brake_interlock exampleConfig exampleInit 3000 2500 (by decide) (by decide)).1,
   (brake_interlock exampleConfig exampleInit 3000 2500 (by decide) (by decide)).2.1⟩

/-! ## The torque ceiling of the active mode -/

theorem tick_throttlePercent_le (cfg : Config) (s : State) (adc1 adc2 : Nat)
    (ht : cfg.THROTTLE_ADC_CALIBRATE_L < cfg.THROTTLE_ADC_CALIBRATE_H)
    (ht16 : cfg.THROTTLE_ADC_CALIBRATE_L < 65536) :
    (brakeAndThrottle_ADC_conversion cfg s adc1 adc2).1.throttlePercent ≤ 100 := by
  have et := calibrate_eq_clampInto ht16 (le_of_lt ht) (adcAvg_lt cfg
    (pushSample cfg s.throttleADCValues s.throttleIndex (u16 adc2)).1)
  have ct := @clampInto_bounds _ _ (throttleAvgOfTick cfg s adc2) (le_of_lt ht)
  have pt := percentOf_eq ht ct.1 ct.2
  rw [tick_throttlePercent]
  unfold throttleAvgOfTick at *
  rw [et, pt.1]
  exact pt.2

theorem init_consistent (cfg : Config) (s : State) (hd : ModesDistinct cfg) :
    ModeConsistent cfg (brakeAndThrottle_init cfg s) := by
  have hm : ({ s with speedMode := u8 cfg.BRAKE_AND_THROTTLE_SPEED_MODE_LEISURE } : State).speedMode
      = cfg.BRAKE_AND_THROTTLE_SPEED_MODE_LEISURE := u8_of_lt hd.2.1
  have g := getSpeedModeParams_leisure cfg _ hd hm
  have f := initLoop_frame cfg cfg.BRAKE_AND_THROTTLE_SAMPLES 0
    (brakeAndThrottle_getSpeedModeParams cfg
      { s with speedMode := u8 cfg.BRAKE_AND_THROTTLE_SPEED_MODE_LEISURE })
  unfold brakeAndThrottle_init ModeConsistent
  simp only
  right; left
  exact ⟨by rw [f.1, g.1], by rw [f.2, g.2]⟩

theorem toggleSpeedMode_consistent (cfg : Config) (s : State) (hd : ModesDistinct cfg)
    (h : ModeConsistent cfg s) :
    ModeConsistent cfg (brakeAndThrottle_toggleSpeedMode cfg s).1 := by
  by_cases hi : throttleIdle cfg s
  · rcases h with h | h | h
    · have t := toggleSpeedMode_from_amble cfg s hi h.1
      rw [u8_of_lt hd.2.1] at t
      exact Or.inr (Or.inl t)
    · have t := toggleSpeedMode_from_leisure cfg s hi hd h.1
      rw [u8_of_lt hd.2.2.1] at t
      exact Or.inr (Or.inr t)
    · have t := toggleSpeedMode_from_sports cfg s hi hd h.1
      rw [u8_of_lt hd.1] at t
      exact Or.inl t
  · rw [toggleSpeedMode_engaged cfg s hi]
    exact h

theorem toggle_mode_frame (s : State) :
    (brakeAndThrottle_toggle s).1.speedMode = s.speedMode
    ∧ modeParams (brakeAndThrottle_toggle s).1 = modeParams s := by
  unfold brakeAndThrottle_toggle
  split_ifs <;> exact ⟨rfl, rfl⟩

theorem modeConsistent_of_frame (cfg : Config) (s t : State)
    (hm : t.speedMode = s.speedMode) (hp : modeParams t = modeParams s)
    (h : ModeConsistent cfg s) : ModeConsistent cfg t := by
  unfold ModeConsistent at *
  rw [hm, hp]
  exact h

theorem step_consistent (cfg : Config) (s : State) (op : Op) (hd : ModesDistinct cfg)
    (h : ModeConsistent cfg s) : ModeConsistent cfg (step cfg s op).1 := by
  cases op with
  | init => exact init_consistent cfg s hd
  | start => exact modeConsistent_of_frame cfg s _ rfl rfl h
  | stop => exact h
  | toggle =>
    exact modeConsistent_of_frame cfg s _ (toggle_mode_frame s).1 (toggle_mode_frame s).2 h
  | setSpeedMode v => exact h
  | toggleSpeedMode => exact toggleSpeedMode_consistent cfg s hd h
  | tick adc1 adc2 => exact modeConsistent_of_frame cfg s _ rfl rfl h

theorem run_consistent (cfg : Config) (ops : List Op) (s : State) (hd : ModesDistinct cfg)
    (h : ModeConsistent cfg s) : ModeConsistent cfg (run cfg s ops).1 := by
  induction ops generalizing s with
  | nil => exact h
  | cons op ops ih =>
    simp only [run]
    exact ih _ (step_consistent cfg s op hd h)

theorem profile_ceiling (cfg : Config) (ratio ramp speed : Nat) (s : State)
    (hmax : cfg.BRAKE_AND_THROTTLE_TORQUEIQ_MAX < 65536) (hr : ratio ≤ 100)
    (h : modeParams s = profile cfg ratio ramp speed) :
    s.reductionRatio = ratio
    ∧ s.speedModeIQmax = s.reductionRatio * cfg.BRAKE_AND_THROTTLE_TORQUEIQ_MAX / 100 := by
  unfold modeParams profile at h
  have h1 : s.reductionRatio = u8 ratio := congrArg Prod.fst h
  have h2 : s.speedModeIQmax = u16 (u8 ratio * cfg.BRAKE_AND_THROTTLE_TORQUEIQ_MAX / 100) :=
    congrArg (fun q => q.2.1) h
  have hu : u8 ratio = ratio := u8_of_lt (by omega)
  rw [hu] at h1 h2
  refine ⟨h1, ?_⟩
  rw [h2, h1]
  apply u16_of_lt
  apply Nat.div_lt_of_lt_mul
  have : ratio * cfg.BRAKE_AND_THROTTLE_TORQUEIQ_MAX
      ≤ 100 * cfg.BRAKE_AND_THROTTLE_TORQUEIQ_MAX := Nat.mul_le_mul_right _ hr
  omega

theorem consistent_ceiling (cfg : Config) (s : State) (hr : RatiosBounded cfg)
    (hmax : cfg.BRAKE_AND_THROTTLE_TORQUEIQ_MAX < 65536) (h : ModeConsistent cfg s) :
    s.reductionRatio ≤ 100
    ∧ s.speedModeIQmax = s.reductionRatio * cfg.BRAKE_AND_THROTTLE_TORQUEIQ_MAX / 100 := by
  rcases h with h | h | h
  · have p := profile_ceiling cfg _ _ _ s hmax hr.1 h.2
    exact ⟨by rw [p.1]; exact hr.1, p.2⟩
  · have p := profile_ceiling cfg _ _ _ s hmax hr.2.1 h.2
    exact ⟨by rw [p.1]; exact hr.2.1, p.2⟩
  · have p := profile_ceiling cfg _ _ _ s hmax hr.2.2 h.2
    exact ⟨by rw [p.1]; exact hr.2.2, p.2⟩

theorem consistent_fixed (cfg : Config) (s : State) (hd : ModesDistinct cfg)
    (h : ModeConsistent cfg s) :
    modeParams (brakeAndThrottle_getSpeedModeParams cfg s) = modeParams s := by
  rcases h with h | h | h
  · rw [getSpeedModeParams_amble cfg s h.1, h.2]
  · rw [(getSpeedModeParams_leisure cfg s hd h.1).2, h.2]
  · rw [getSpeedModeParams_sports cfg s hd h.1, h.2]

theorem torqueCommand_le (cfg : Config) (errorMsg brakeStatus ratio p : Nat) (hp : p ≤ 100) :
    torqueCommand cfg errorMsg brakeStatus ratio p
      ≤ ratio * cfg.BRAKE_AND_THROTTLE_TORQUEIQ_MAX / 100 := by
  unfold torqueCommand
  rw [Nat.mul_comm ratio cfg.BRAKE_AND_THROTTLE_TORQUEIQ_MAX]
  generalize cfg.BRAKE_AND_THROTTLE_TORQUEIQ_MAX * ratio = x
  split_ifs
  · exact Nat.zero_le _
  · have h1 : u16 (x * p / 10000) ≤ x * p / 10000 := Nat.mod_le _ _
    have h2 : x * p ≤ x * 100 := Nat.mul_le_mul_left _ hp
    have h3 : x * p / 10000 ≤ x * 100 / 10000 := Nat.div_le_div_right h2
    omega
  · exact Nat.zero_le _

/-- C21: torque ceiling.  With distinct mode identifiers, each mode's reduction
ratio at most 100, `TORQUEIQ_MAX < 2^16` and a proper throttle calibration
range, in every state reached from `brakeAndThrottle_init` by any sequence of
operations (ticks, mode-cycle requests, `setSpeedMode` calls, and also init,
start, stop, toggle): the speed mode is one of the three modes and the four
parameters are that mode's, `speedModeIQmax = reductionRatio * TORQUEIQ_MAX / 100`,
the parameters agree with those `brakeAndThrottle_getSpeedModeParams` assigns
for the same mode, and the torque command of any tick from that state does not
exceed `speedModeIQmax`. -/
theorem torque_ceiling (cfg : Config) (s0 : State) (ops : List Op) (adc1 adc2 : Nat)
    (hd : ModesDistinct cfg) (hr : RatiosBounded cfg)
    (hmax : cfg.BRAKE_AND_THROTTLE_TORQUEIQ_MAX < 65536)
    (ht : cfg.THROTTLE_ADC_CALIBRATE_L < cfg.THROTTLE_ADC_CALIBRATE_H)
    (ht16 : cfg.THROTTLE_ADC_CALIBRATE_L < 65536) :
    ModeConsistent cfg (reached cfg s0 ops)
    ∧ (reached cfg s0 ops).reductionRatio ≤ 100
    ∧ (reached cfg s0 ops).speedModeIQmax
        = (reached cfg s0 ops).reductionRatio * cfg.BRAKE_AND_THROTTLE_TORQUEIQ_MAX / 100
    ∧ modeParams (brakeAndThrottle_getSpeedModeParams cfg (reached cfg s0 ops))
        = modeParams (reached cfg s0 ops)
    ∧ (brakeAndThrottle_ADC_conversion cfg (reached cfg s0 ops) adc1 adc2).1.IQValue
        ≤ (reached cfg s0 ops).speedModeIQmax
    ∧ (brakeAndThrottle_ADC_conversion cfg (reached cfg s0 ops) adc1 adc2).2.head?
        = some (Event.brakeAndThrottle_CB (reached cfg s0 ops).allowableSpeed
            (brakeAndThrottle_ADC_conversion cfg (reached cfg s0 ops) adc1 adc2).1.IQValue
            (brakeAndThrottle_ADC_conversion cfg (reached cfg s0 ops) adc1
              adc2).1.brakeAndThrottle_errorMsg) := by
  have hc : ModeConsistent cfg (reached cfg s0 ops) :=
    run_consistent cfg ops _ hd (init_consistent cfg s0 hd)
  have c := consistent_ceiling cfg _ hr hmax hc
  refine ⟨hc, c.1, c.2, consistent_fixed cfg _ hd hc, ?_, tick_events_head cfg _ adc1 adc2⟩
  rw [tick_IQValue, c.2]
  exact torqueCommand_le cfg _ _ _ _ (tick_throttlePercent_le cfg _ adc1 adc2 ht ht16)

/-- Witness for C21: the example configuration, from power on through init, a
tick, a cycle request with the throttle idle (Leisure to Sports), a setter call
and a tick with the throttle reading at 3000; the next tick (throttle percent
41) commands torque 8200, below the ceiling 20000 of mode Sports. -/
theorem torque_ceiling_witness :
    (reached exampleConfig (powerOnState exampleConfig)
        [Op.tick 150 150, Op.toggleSpeedMode, Op.setSpeedMode 0, Op.tick 150 3000]).speedModeIQmax
      = 20000
    ∧ (brakeAndThrottle_ADC_conversion exampleConfig
          (reached exampleConfig (powerOnState exampleConfig)
            [Op.tick 150 150, Op.toggleSpeedMode, Op.setSpeedMode 0, Op.tick 150 3000])
          150 3000).1.IQValue
        ≤ (reached exampleConfig (powerOnState exampleConfig)
            [Op.tick 150 150, Op.toggleSpeedMode, Op.setSpeedMode 0,
              Op.tick 150 3000]).speedModeIQmax :=
  ⟨by decide,
    (torque_ceiling exampleConfig (powerOnState exampleConfig)
      [Op.tick 150 150, Op.toggleSpeedMode, Op.setSpeedMode 0, Op.tick 150 3000] 150 3000
      (by decide) (by decide) (by decide) (by decide) (by decide)).2.2.2.2.1⟩

/-! ## Start, stop and toggle -/

/-- C22: `brakeAndThrottle_toggle` trusts its own bit `state`, which
`brakeAndThrottle_start` and `brakeAndThrottle_stop` never write.  With the bit
at 0 toggle issues timer start and both ADC opens and sets the bit to 1; with
the bit at 1 it issues timer stop and both ADC closes and sets the bit to 0.
So after start in a state with the bit at 0, toggle issues the start calls a
second time, not the calls of stop; in particular from power on, start followed
by toggle issues the three start calls twice and leaves the bit at 1. -/
theorem toggle_trusts_state_bit (cfg : Config) (s : State) :
    (brakeAndThrottle_start s).1.state = s.state
    ∧ (brakeAndThrottle_stop s).1.state = s.state
    ∧ (s.state = 0 → brakeAndThrottle_toggle s
        = ({ s with state := 1 }, [Event.timerStart, Event.adc1Open, Event.adc2Open]))
    ∧ (s.state = 1 → brakeAndThrottle_toggle s
        = ({ s with state := 0 }, [Event.timerStop, Event.adc1Close, Event.adc2Close]))
    ∧ (s.state = 0 →
        (brakeAndThrottle_toggle (brakeAndThrottle_start s).1).2 = (brakeAndThrottle_start s).2
        ∧ (brakeAndThrottle_toggle (brakeAndThrottle_start s).1).2
            ≠ (brakeAndThrottle_stop (brakeAndThrottle_start s).1).2)
    ∧ (run cfg (powerOnState cfg) [Op.start, Op.toggle]).2
        = [Event.timerStart, Event.adc1Open, Event.adc2Open,
           Event.timerStart, Event.adc1Open, Event.adc2Open]
    ∧ (run cfg (powerOnState cfg) [Op.start, Op.toggle]).1.state = 1 := by
  refine ⟨rfl, rfl, fun h => ?_, fun h => ?_, fun h => ?_, rfl, rfl⟩
  · unfold brakeAndThrottle_toggle
    rw [if_pos h]
  · unfold brakeAndThrottle_toggle
    have h0 : ¬ s.state = 0 := by omega
    rw [if_neg h0, if_pos h]
  · have hs : (brakeAndThrottle_start s).1.state = 0 := h
    have e : (brakeAndThrottle_toggle (brakeAndThrottle_start s).1).2
        = [Event.timerStart, Event.adc1Open, Event.adc2Open] := by
      unfold brakeAndThrottle_toggle
      rw [if_pos hs]
    refine ⟨e, ?_⟩
    rw [e]
    show [Event.timerStart, Event.adc1Open, Event.adc2Open]
      ≠ [Event.timerStop, Event.adc1Close, Event.adc2Close]
    decide

/-- Witness for C22: the initialised example state (bit at 0): start followed
by toggle issues the start calls again, and a second toggle then stops. -/
theorem toggle_trusts_state_bit_witness :
    (brakeAndThrottle_toggle (brakeAndThrottle_start exampleInit).1).2
        = [Event.timerStart, Event.adc1Open, Event.adc2Open]
    ∧ (brakeAndThrottle_toggle
          (brakeAndThrottle_toggle (brakeAndThrottle_start exampleInit).1).1).2
        = [Event.timerStop, Event.adc1Close, Event.adc2Close] :=
  ⟨((toggle_trusts_state_bit exampleConfig exampleInit).2.2.2.2.1 (by decide)).1, by decide⟩

end BrakeAndThrottle
